import Mathlib

/-!
# X plugin server core (`plugin/x/src/xpl_server.cc`)

A shallow embedding of the admission controller, the kill-connection protocol,
the bind-address parser and the startup sequence of `xpl::Server`, of its TLS choice,
live reconfiguration, client ids, shutdown poll and grants check, and of
`im::Snapshot_info_t` (`sql/table_ext.h`), with the properties of the specification
stated and proved over it.

Conventions of the embedding:

* `int` is 32 bits wide, two's complement; `unsigned int` and `uint32` are
  naturals below `2^32`; a conversion or an arithmetic result is reduced
  explicitly (`to_int32`, `to_uint32`).
* A C string is the list of its characters before the terminating NUL.
* Calls into collaborators whose code is outside this file (the SQL layer, the
  registry of other threads) are inputs of the functions that make them, and
  the calls made are recorded, in program order, in an event list.
-/

set_option autoImplicit false

namespace xpl

/-! ## Machine integers -/

/-- Value of an integer after conversion to the 32-bit two's complement type `int`. -/
def to_int32 (z : Int) : Int := (z + 2147483648) % 4294967296 - 2147483648

/-- Value of a natural after reduction to the 32-bit type `uint32`. -/
def to_uint32 (n : Nat) : Nat := n % 4294967296

/-- Value of an integer after conversion to the 64-bit two's complement type `int64`. -/
def to_int64 (z : Int) : Int :=
  (z + 9223372036854775808) % 18446744073709551616 - 9223372036854775808

/-! ## Admission controller -/

/-- The counters of `Global_status_variables` that the admission path writes. -/
structure Global_status_variables where
  m_accepted_connections_count : Int
  m_closed_connections_count : Int
  m_rejected_connections_count : Int
  m_connection_errors_count : Int
  m_connection_accept_errors_count : Int
deriving DecidableEq, Repr

/-- The integer members of `Server` set by its constructor: the client-id counter
(`uint64`) and the live connection counter (an `int`, incremented and decremented
modulo `2^32`). -/
structure Server where
  m_client_id : Nat
  m_num_of_connections : Int
deriving DecidableEq, Repr

/-- State after `Server::Server`: `m_client_id(0), m_num_of_connections(0)`. -/
def Server.init : Server := ⟨0, 0⟩

/-- `Global_status_variables::reset`: every counter is zero. -/
def Global_status_variables.init : Global_status_variables := ⟨0, 0, 0, 0, 0⟩

/-- `Server::will_accept_client`: `max_connections` is the `unsigned int` system
variable, `is_terminating` the value `mysqld::is_terminating()` would return.
Returns the result and the server state after the call. -/
def will_accept_client (max_connections : Nat) (is_terminating : Bool) (s : Server) :
    Bool × Server :=
  -- ++m_num_of_connections;
  let n := to_int32 (s.m_num_of_connections + 1)
  -- m_num_of_connections <= (int)Plugin_system_variables::max_connections
  let can_be_accepted := decide (n ≤ to_int32 (max_connections : Int))
  if !can_be_accepted || is_terminating then
    -- --m_num_of_connections; return false;
    (false, { s with m_num_of_connections := to_int32 (n - 1) })
  else
    (true, { s with m_num_of_connections := n })

/-- `Server::on_client_closed`: counts the closed connection and decrements the live
connection counter. -/
def on_client_closed (g : Global_status_variables) (s : Server) :
    Global_status_variables × Server :=
  ({ g with m_closed_connections_count := to_int64 (g.m_closed_connections_count + 1) },
   { s with m_num_of_connections := to_int32 (s.m_num_of_connections - 1) })

/-- One operation of the admission controller as the acceptor drives it. -/
inductive Admission_op where
  | will_accept (is_terminating : Bool)
  | client_closed
deriving DecidableEq, Repr

/-- The controller's state together with `live`, the number of clients that were
accepted and have not been closed yet (a ghost value: the code does not store it). -/
structure Admission where
  status : Global_status_variables
  server : Server
  live : Nat
deriving DecidableEq, Repr

/-- State of a freshly constructed server: no connection, no accepted client. -/
def Admission.init : Admission := ⟨Global_status_variables.init, Server.init, 0⟩

/-- One completed operation. `on_client_closed` is issued only for a client that was
accepted and not yet closed ("Only accepted clients are calling on_client_closed");
where there is none the operation is not possible (`none`). -/
def admission_step (max_connections : Nat) (a : Admission) : Admission_op → Option Admission
  | .will_accept is_terminating =>
    let r := will_accept_client max_connections is_terminating a.server
    some { a with server := r.2, live := if r.1 then a.live + 1 else a.live }
  | .client_closed =>
    if a.live = 0 then none
    else
      let r := on_client_closed a.status a.server
      some { status := r.1, server := r.2, live := a.live - 1 }

/-- A sequence of completed operations, `none` when the sequence closes a client that
is not open. -/
def admission_run (max_connections : Nat) : Admission → List Admission_op → Option Admission
  | a, [] => some a
  | a, op :: ops =>
    match admission_step max_connections a op with
    | some b => admission_run max_connections b ops
    | none => none

/-! ## Kill-connection protocol -/

/-- The members of `ngs::Error_code` that `kill_client` sets: the numeric code and
the formatted message. -/
structure Error_code where
  error : Int
  message : String
deriving DecidableEq, Repr

/-- `ngs::Success()`: the code is zero. -/
def Success : Error_code := ⟨0, ""⟩

/-- `ngs::Error(code, fmt, ...)`: an error with the given code and formatted text. -/
def Error (code : Int) (message : String) : Error_code := ⟨code, message⟩

/-- `Error_code::operator bool`: true when the code is not zero. -/
def Error_code.is_error (e : Error_code) : Bool := e.error != 0

/-- Server error code `ER_NO_SUCH_THREAD`, with its value in the server's error-code
table (`mysqld_error.h`). -/
def ER_NO_SUCH_THREAD : Int := 1094

/-- Server error code `ER_KILL_DENIED_ERROR`, with its value in the server's error-code
table (`mysqld_error.h`). -/
def ER_KILL_DENIED_ERROR : Int := 1095

/-- Modelled from the spec: the state of a Connection, its state is one of accepted,
running, closing, closed (the enumeration `ngs::Client_interface::State` is declared in
`client_interface.h`); `kill_client` only tells `k_closed` from the rest. -/
inductive Client_state where
  | k_accepted
  | k_running
  | k_closing
  | k_closed
deriving DecidableEq, Repr

/-- What `kill_client` reads of a session's `data_context()`: the id of the database
session and whether it reports itself killed. -/
structure Session where
  mysql_session_id : Nat
  is_killed : Bool
deriving DecidableEq, Repr

/-- What `kill_client` reads of a client: its id, its state and the session it holds,
if any (`session_smart_ptr()`). -/
structure Client where
  client_id : Nat
  state : Client_state
  session : Option Session
deriving DecidableEq, Repr

/-- Modelled from the spec: the Connection Registry, a "map from connection id to
connection object" with lookup (`Client_list::find` is defined in `client_list.cc`):
the first registered client with the id, or nothing. -/
def Client_list.find (clients : List Client) (client_id : Nat) : Option Client :=
  clients.find? (fun c => c.client_id == client_id)

/-- What other threads and the SQL layer answer during one `kill_client` call:
the result `requester.data_context().execute_kill_sql_session` gives for a database
session id, and the session the target holds when the session-exit mutex is taken
the second time. -/
structure Kill_env where
  execute_kill_sql_session : Nat → Error_code
  session_at_recheck : Option Session

/-- The calls `kill_client` makes, in program order. -/
inductive Kill_event where
  | lock_exit_mutex
  | unlock_exit_mutex
  | lock_session_exit_mutex (client_id : Nat)
  | unlock_session_exit_mutex (client_id : Nat)
  | execute_kill_sql_session (mysql_session_id : Nat)
  | kill (client_id : Nat)
deriving DecidableEq, Repr

/-- The text of a `%llu` conversion. -/
def format_llu (n : Nat) : String := toString n

/-- `Server::kill_client(client_id, requester)`: `requester_id` is
`requester.client().client_id_num()`. Returns the result and the calls made. The
exit mutex is released when `lock` is reset or destroyed, that is before `kill()`
on the self-kill path and at the return everywhere else. -/
def kill_client (clients : List Client) (env : Kill_env) (client_id : Nat)
    (requester_id : Nat) : Error_code × List Kill_event :=
  match Client_list.find clients client_id with
  | some found_client =>
    if found_client.state ≠ Client_state.k_closed then
      if client_id = requester_id then
        (Success,
          [.lock_exit_mutex, .unlock_exit_mutex, .kill found_client.client_id])
      else
        let first_look : List Kill_event :=
          [.lock_exit_mutex, .lock_session_exit_mutex found_client.client_id,
            .unlock_session_exit_mutex found_client.client_id]
        match found_client.session with
        | some session =>
          let mysql_session_id := session.mysql_session_id
          let error := env.execute_kill_sql_session mysql_session_id
          if error.is_error then
            (error,
              first_look ++ [.execute_kill_sql_session mysql_session_id, .unlock_exit_mutex])
          else
            let is_killed :=
              match env.session_at_recheck with
              | some s => s.is_killed
              | none => false
            let second_look : List Kill_event :=
              [.execute_kill_sql_session mysql_session_id,
                .lock_session_exit_mutex found_client.client_id,
                .unlock_session_exit_mutex found_client.client_id]
            if is_killed then
              (Success,
                first_look ++ second_look ++
                  [.kill found_client.client_id, .unlock_exit_mutex])
            else
              (Error ER_KILL_DENIED_ERROR ("Cannot kill client " ++ format_llu client_id),
                first_look ++ second_look ++ [.unlock_exit_mutex])
        | none =>
          (Error ER_KILL_DENIED_ERROR ("Cannot kill client " ++ format_llu client_id),
            first_look ++ [.unlock_exit_mutex])
    else
      (Error ER_NO_SUCH_THREAD ("Unknown MySQLx client id " ++ format_llu client_id),
        [.lock_exit_mutex, .unlock_exit_mutex])
  | none =>
    (Error ER_NO_SUCH_THREAD ("Unknown MySQLx client id " ++ format_llu client_id),
      [.lock_exit_mutex, .unlock_exit_mutex])

/-- The event is the termination signal `Client::kill()`. -/
def Kill_event.is_kill : Kill_event → Bool
  | .kill _ => true
  | _ => false

/-- The event is a kill request on the requester's database connection. -/
def Kill_event.is_kill_request : Kill_event → Bool
  | .execute_kill_sql_session _ => true
  | _ => false

/-! ## Bind address and startup -/

/-- `strchr(s, c)` for a character `c` other than NUL: the offset of the first
occurrence of `c` in `s`, or nothing (the null pointer). -/
def strchr : List Char → Char → Option Nat
  | [], _ => none
  | x :: xs, c => if x = c then some 0 else (strchr xs c).map (· + 1)

/-- `parse_bind_address_value(begin_address_value, address_value, network_namespace)`:
the last two arguments are the values of the output strings before the call; the
result is the returned flag (`true` is a parse error) and the output strings after
the call. The character at `namespace_separator + 1` is NUL exactly when the string
ends there. -/
def parse_bind_address_value (begin_address_value : List Char)
    (address_value network_namespace : List Char) : Bool × List Char × List Char :=
  match strchr begin_address_value '/' with
  | some namespace_separator =>
    if namespace_separator = 0 then
      -- Parse error: there is no character before '/'
      (true, address_value, network_namespace)
    else if begin_address_value[namespace_separator + 1]? = none then
      -- Parse error: there is no character immediately after '/'
      (true, address_value, network_namespace)
    else
      (false, begin_address_value.take namespace_separator,
        begin_address_value.drop (namespace_separator + 1))
  | none => (false, begin_address_value, network_namespace)

/-- `listen_backlog` of `plugin_main`: `uint32` arithmetic on the `unsigned int`
system variable `max_connections`, then the cap at 900. -/
def listen_backlog (max_connections : Nat) : Nat :=
  let listen_backlog := to_uint32 (50 + max_connections / 5)
  if listen_backlog > 900 then 900 else listen_backlog

/-- The error codes `plugin_main` logs. -/
inductive Log_code where
  | ER_XPLUGIN_STARTUP_FAILED
  | ER_NETWORK_NAMESPACE_NOT_ALLOWED_FOR_WILDCARD_ADDRESS
deriving DecidableEq, Repr

/-- The steps of `plugin_main` that act on something outside the function, in the
words of the code. -/
inductive Startup_event where
  | initialize_xmessages
  | reset_global_status_variables
  | allocate_session_scheduler
  | setup_socket_variable
  | allocate_config
  | allocate_events
  | allocate_timeout_callback
  | log_error (code : Log_code)
  | allocate_acceptors (address_value network_namespace : List Char) (listen_backlog : Nat)
  | instance_wlock
  | set_exiting_false
  | allocate_server
  | enable_sha256_password_cache
  | add_sha256_password_cache
  | add_authentication_mechanism (name : String) (secure_only : Bool)
  | plugin_system_variables_changed
  | set_monitor
  | launch_session_scheduler
  | launch_network_scheduler
  | registry_callback_variables_changed
  | registry_callback_global_timeouts
  | post_net_thread
  | register_services
  | register_udfs
  | start_failed
  | instance_unlock
deriving DecidableEq, Repr

/-- Runs steps inside the `try` block until one throws a `std::exception`: the steps
completed, and whether one threw. -/
def run_steps (throws : Startup_event → Bool) :
    List Startup_event → List Startup_event × Bool
  | [] => ([], false)
  | e :: es =>
    if throws e then ([], true)
    else ((e :: (run_steps throws es).1), (run_steps throws es).2)

/-- The `catch (const std::exception &e)` block of `plugin_main`; `has_instance` tells
whether `instance` is set. -/
def startup_catch (has_instance : Bool) : List Startup_event :=
  (if has_instance then [Startup_event.start_failed] else []) ++
    [.instance_unlock, .log_error .ER_XPLUGIN_STARTUP_FAILED]

/-- The steps of `plugin_main` before the bind address is parsed. -/
def startup_steps_before_parse : List Startup_event :=
  [.initialize_xmessages, .reset_global_status_variables, .allocate_session_scheduler,
    .setup_socket_variable, .allocate_config, .allocate_events, .allocate_timeout_callback]

/-- The steps of `plugin_main` after the bind address was accepted. -/
def startup_steps_after_parse (cache_plugin_started : Bool)
    (address_value network_namespace : List Char) (listen_backlog : Nat) :
    List Startup_event :=
  [.allocate_acceptors address_value network_namespace listen_backlog,
    .instance_wlock, .set_exiting_false, .allocate_server] ++
  (if cache_plugin_started then [Startup_event.enable_sha256_password_cache] else []) ++
  [.add_sha256_password_cache,
    .add_authentication_mechanism "PLAIN" true,
    .add_authentication_mechanism "MYSQL41" false,
    .add_authentication_mechanism "MYSQL41" true,
    .add_authentication_mechanism "SHA256_MEMORY" false,
    .add_authentication_mechanism "SHA256_MEMORY" true,
    .plugin_system_variables_changed,
    .set_monitor, .launch_session_scheduler, .launch_network_scheduler,
    .registry_callback_variables_changed, .registry_callback_global_timeouts,
    .post_net_thread, .register_services, .register_udfs, .instance_unlock]

/-- `Server::plugin_main`: the returned code and the steps taken, in order.
`check_address_is_wildcard` is the external function of that name, `throws` tells
which steps throw a `std::exception`, `cache_plugin_started` is
`g_cache_plugin_started`, and `max_connections`, `bind_address` are the system
variables. `instance` is null on entry. -/
def plugin_main (check_address_is_wildcard : List Char → Bool)
    (throws : Startup_event → Bool) (cache_plugin_started : Bool)
    (max_connections : Nat) (bind_address : List Char) : Int × List Startup_event :=
  let backlog := listen_backlog max_connections
  let before := run_steps throws startup_steps_before_parse
  if before.2 then (1, before.1 ++ startup_catch false)
  else
    -- std::string address_value, network_namespace;
    let parsed := parse_bind_address_value bind_address [] []
    let address_value := parsed.2.1
    let network_namespace := parsed.2.2
    if parsed.1 then
      (1, before.1 ++ [.log_error .ER_XPLUGIN_STARTUP_FAILED])
    else if !network_namespace.isEmpty && check_address_is_wildcard address_value then
      (1, before.1 ++
        [.log_error .ER_NETWORK_NAMESPACE_NOT_ALLOWED_FOR_WILDCARD_ADDRESS])
    else
      let after := run_steps throws
        (startup_steps_after_parse cache_plugin_started address_value network_namespace
          backlog)
      if after.2 then
        (1, before.1 ++ after.1 ++
          startup_catch (decide (Startup_event.allocate_server ∈ after.1)))
      else (0, before.1 ++ after.1)

/-- The step creates the `Server` instance. -/
def Startup_event.is_server_created : Startup_event → Bool
  | .allocate_server => true
  | _ => false

/-- The step takes the instance write lock. -/
def Startup_event.is_wlock : Startup_event → Bool
  | .instance_wlock => true
  | _ => false

/-- The step launches a scheduler. -/
def Startup_event.is_launch : Startup_event → Bool
  | .launch_session_scheduler => true
  | .launch_network_scheduler => true
  | _ => false

/-! ## Predicates used in the statements -/

/-- The invariant of the admission controller: the counter is the number of open
clients, and that number is within the limit. -/
def Admission.inv (N : Nat) (a : Admission) : Prop :=
  a.server.m_num_of_connections = (a.live : Int) ∧ a.live ≤ N

/-- The kill is confirmed: the target held a session at the first look, the kill
request on its database session returned no error, and at the second look the target
holds a session that reports itself killed. -/
def kill_confirmed (c : Client) (env : Kill_env) : Prop :=
  ∃ s s2, c.session = some s ∧
    (env.execute_kill_sql_session s.mysql_session_id).is_error = false ∧
    env.session_at_recheck = some s2 ∧ s2.is_killed = true

/-- The step is one that happens only once startup got past the configuration
checks: creating the `Server`, taking the instance write lock, launching a scheduler. -/
def Startup_event.is_past_config (e : Startup_event) : Bool :=
  e.is_server_created || e.is_wlock || e.is_launch

/-! ## TLS configuration -/

/-- The members of `Ssl_config` that `on_net_startup` reads: C strings, null when the
setting is absent. -/
structure Ssl_config where
  ssl_key : Option (List Char)
  ssl_ca : Option (List Char)
  ssl_capath : Option (List Char)
  ssl_cert : Option (List Char)
  ssl_cipher : Option (List Char)
  ssl_crl : Option (List Char)
  ssl_crlpath : Option (List Char)
deriving DecidableEq, Repr

/-- Modelled from the spec: the default-constructed configuration `Ssl_config()` is
empty, "TLS is disabled for this listener" (the constructor is defined in
`ssl_config.cc`): every member is null. -/
def Ssl_config.default : Ssl_config := ⟨none, none, none, none, none, none, none⟩

/-- The source `choose_ssl_config` logs. -/
inductive Ssl_log_code where
  | ER_XPLUGIN_USING_SSL_CONF_FROM_SERVER
  | ER_XPLUGIN_USING_SSL_CONF_FROM_MYSQLX
  | ER_XPLUGIN_FAILED_TO_USE_SSL_CONF
deriving DecidableEq, Repr

/-- `choose_ssl_config(mysqld_have_ssl, mysqld_ssl, mysqlx_ssl)`: the configuration
returned and the code logged. `is_configured` is `Ssl_config::is_configured`, defined
in `ssl_config.cc`. -/
def choose_ssl_config (is_configured : Ssl_config → Bool) (mysqld_have_ssl : Bool)
    (mysqld_ssl mysqlx_ssl : Ssl_config) : Ssl_config × Ssl_log_code :=
  if !is_configured mysqlx_ssl && mysqld_have_ssl then
    (mysqld_ssl, .ER_XPLUGIN_USING_SSL_CONF_FROM_SERVER)
  else if is_configured mysqlx_ssl then
    (mysqlx_ssl, .ER_XPLUGIN_USING_SSL_CONF_FROM_MYSQLX)
  else
    (Ssl_config.default, .ER_XPLUGIN_FAILED_TO_USE_SSL_CONF)

/-! ## Live configuration -/

/-- The members of `Plugin_system_variables` that
`plugin_system_variables_changed` reads or writes, all `unsigned int`. -/
structure Plugin_system_variables where
  min_worker_threads : Nat
  idle_worker_thread_timeout : Nat
  m_interactive_timeout : Nat
  max_allowed_packet : Nat
  connect_timeout : Nat
deriving DecidableEq, Repr

/-- The members of `ngs::Protocol_global_config` that
`plugin_system_variables_changed` writes; `connect_timeout` is in seconds. -/
structure Protocol_global_config where
  m_interactive_timeout : Nat
  max_message_size : Nat
  connect_timeout : Nat
deriving DecidableEq, Repr

/-- The calls `plugin_system_variables_changed` makes on the session scheduler. -/
inductive Scheduler_call where
  | set_num_workers (n : Nat)
  | set_idle_worker_timeout (milliseconds : Nat)
deriving DecidableEq, Repr

/-- `Server::plugin_system_variables_changed`: `set_num_workers` is what
`m_wscheduler->set_num_workers` returns for a requested minimum. Returns the system
variables and the configuration after the call, and the scheduler calls made. -/
def plugin_system_variables_changed (set_num_workers : Nat → Nat)
    (v : Plugin_system_variables) (config : Protocol_global_config) :
    Plugin_system_variables × Protocol_global_config × List Scheduler_call :=
  let min := to_uint32 (set_num_workers v.min_worker_threads)
  let v1 : Plugin_system_variables :=
    if min < v.min_worker_threads then { v with min_worker_threads := min } else v
  (v1,
    { config with
      m_interactive_timeout := v1.m_interactive_timeout,
      max_message_size := v1.max_allowed_packet,
      connect_timeout := v1.connect_timeout },
    [.set_num_workers v.min_worker_threads,
      .set_idle_worker_timeout (to_uint32 (v1.idle_worker_thread_timeout * 1000))])

/-! ## Client ids -/

/-- Value of a natural after reduction to the 64-bit type `uint64_t`. -/
def to_uint64 (n : Nat) : Nat := n % 18446744073709551616

/-- `Server::create_client`: the id given to the new client, `++m_client_id` on the
`uint64_t` counter, and the server afterwards. -/
def create_client (s : Server) : Nat × Server :=
  let id := to_uint64 (s.m_client_id + 1)
  (id, { s with m_client_id := id })

/-- `Server::reset_globals`: the status counters are reset, the worker-thread count
(`m_worker_thread_count`, kept here beside the counters of the admission path) is put
back, and the client-id counter is set to 0. -/
def reset_globals (_g : Global_status_variables) (m_worker_thread_count : Int) (s : Server) :
    Global_status_variables × Int × Server :=
  let worker_thread_count := m_worker_thread_count
  (Global_status_variables.init, to_int64 (0 + worker_thread_count),
    { s with m_client_id := 0 })

/-- `Server::reset`: `inner_reset` is what `instance->server().reset_globals()`
returns; the result is that value and the state afterwards. -/
def Server.reset (inner_reset : Bool) (g : Global_status_variables)
    (m_worker_thread_count : Int) (s : Server) :
    Bool × Global_status_variables × Int × Server :=
  if inner_reset then (inner_reset, reset_globals g m_worker_thread_count s)
  else (inner_reset, g, m_worker_thread_count, s)

/-- One operation on the client-id counter of a `Server` instance. -/
inductive Id_op where
  | create_client
  | reset (inner_reset : Bool)
  | reset_globals
deriving DecidableEq, Repr

/-- The state the operations of `Id_op` act on. -/
structure Id_state where
  status : Global_status_variables
  m_worker_thread_count : Int
  server : Server
deriving DecidableEq, Repr

/-- State of a freshly constructed server. -/
def Id_state.init : Id_state := ⟨Global_status_variables.init, 0, Server.init⟩

/-- Runs the operations in order: the ids of the clients created, in creation order,
and the state at the end. -/
def run_id_ops : Id_state → List Id_op → List Nat × Id_state
  | st, [] => ([], st)
  | st, .create_client :: ops =>
    let r := create_client st.server
    let rest := run_id_ops { st with server := r.2 } ops
    (r.1 :: rest.1, rest.2)
  | st, .reset inner_reset :: ops =>
    let r := Server.reset inner_reset st.status st.m_worker_thread_count st.server
    run_id_ops ⟨r.2.1, r.2.2.1, r.2.2.2⟩ ops
  | st, .reset_globals :: ops =>
    let r := reset_globals st.status st.m_worker_thread_count st.server
    run_id_ops ⟨r.1, r.2.1, r.2.2⟩ ops

/-- The operation sets the client-id counter back: `reset_globals`, or `Server::reset`
when the inner reset succeeds. -/
def Id_op.resets_counter : Id_op → Bool
  | .reset_globals => true
  | .reset inner_reset => inner_reset
  | .create_client => false

/-! ## Shutdown poll -/

/-- The calls `on_verify_server_state` makes, and the synchronous
`ngs::Server::close_all_clients` that other paths of the file make. -/
inductive Verify_event where
  | log_debug (message : String)
  | allocate_task
  | post_task
  | free_task
  | close_all_clients
  | stop (is_called_from_timeout_handler : Bool)
deriving DecidableEq, Repr

/-- `Server::on_verify_server_state`: `mysqld_is_terminating` is
`mysqld::is_terminating()`, `exiting` the flag `Server::exiting`,
`wscheduler_is_running` is `m_wscheduler->is_running()` and `post_result` what
`m_wscheduler->post(task)` returns. The task posted runs `close_all_clients` on a
worker later; here it is only allocated, posted and, when refused, freed. -/
def on_verify_server_state (mysqld_is_terminating exiting wscheduler_is_running
    post_result : Bool) : Bool × List Verify_event :=
  -- is_exiting(): mysqld::is_terminating() || Server::exiting
  if mysqld_is_terminating || exiting then
    (false,
      (if !exiting then
        [Verify_event.log_debug "Shutdown triggered by mysqld abort flag"] else []) ++
      (if wscheduler_is_running then
        [Verify_event.allocate_task, .post_task] ++
          (if !post_result then
            [Verify_event.log_debug "Unable to schedule closing all clients ", .free_task]
          else [])
      else []) ++
      [.stop true])
  else (true, [])

/-- The callback `start_verify_server_state_timer` registers: one call of
`on_verify_server_state`, whose result is dropped, then `return true`. -/
def verify_server_state_callback (mysqld_is_terminating exiting wscheduler_is_running
    post_result : Bool) : Bool × List Verify_event :=
  let r := on_verify_server_state mysqld_is_terminating exiting wscheduler_is_running
    post_result
  (true, r.2)

/-- `Server::start_verify_server_state_timer`: the arguments of the one call
`m_server.add_callback(1000, ...)`, the delay and the callback. -/
def start_verify_server_state_timer :
    Nat × (Bool → Bool → Bool → Bool → Bool × List Verify_event) :=
  (1000, verify_server_state_callback)

/-- The event is a call of `stop`. -/
def Verify_event.is_stop : Verify_event → Bool
  | .stop _ => true
  | _ => false

/-- The event posts or allocates the close-all-clients task. -/
def Verify_event.is_task : Verify_event → Bool
  | .allocate_task => true
  | .post_task => true
  | _ => false

/-! ## Lock order -/

/-- Checks a trace of `kill_client` against the lock order, given whether the exit
mutex is held and how many session-exit mutexes are held before it: the exit mutex
is never acquired while a session-exit mutex is held, and a session-exit mutex is
acquired only once the exit mutex was acquired and while it is still held. -/
def lock_order_ok : Bool → Nat → List Kill_event → Bool
  | _, _, [] => true
  | _, session_held, .lock_exit_mutex :: es =>
    session_held == 0 && lock_order_ok true session_held es
  | _, session_held, .unlock_exit_mutex :: es => lock_order_ok false session_held es
  | exit_held, session_held, .lock_session_exit_mutex _ :: es =>
    exit_held && lock_order_ok exit_held (session_held + 1) es
  | exit_held, session_held, .unlock_session_exit_mutex _ :: es =>
    lock_order_ok exit_held (session_held - 1) es
  | exit_held, session_held, _ :: es => lock_order_ok exit_held session_held es

/-- The number of mutexes a trace leaves held: acquisitions minus releases. -/
def locks_left_held : List Kill_event → Int
  | [] => 0
  | .lock_exit_mutex :: es => locks_left_held es + 1
  | .lock_session_exit_mutex _ :: es => locks_left_held es + 1
  | .unlock_exit_mutex :: es => locks_left_held es - 1
  | .unlock_session_exit_mutex _ :: es => locks_left_held es - 1
  | _ :: es => locks_left_held es

/-! ## Grants of the session account -/

/-- `std::string::find(needle)`: the first position where `needle` occurs in the
string, or nothing (`npos`). -/
def string_find : List Char → List Char → Option Nat
  | [], needle => if needle.isPrefixOf [] then some 0 else none
  | c :: cs, needle =>
    if needle.isPrefixOf (c :: cs) then some 0 else (string_find cs needle).map (· + 1)

/-- The local variables of `verify_mysqlx_user_grants`; `num_of_grants` is an `int`. -/
structure Grants_state where
  num_of_grants : Int
  has_no_privileges : Bool
  has_select_on_mysql_user : Bool
  has_super : Bool
deriving DecidableEq, Repr

/-- The errors `verify_mysqlx_user_grants` throws. -/
inductive Grants_error where
  | ER_X_MYSQLX_ACCOUNT_MISSING_PERMISSIONS
  | ER_X_BAD_CONFIGURATION
deriving DecidableEq, Repr

/-- The row of `SHOW GRANTS` for an account without privileges; `session_user` and
`host` are the macros `MYSQL_SESSION_USER` and `MYSQLXSYS_HOST`. -/
def usage_grant (session_user host : List Char) : List Char :=
  "GRANT USAGE ON *.* TO `".toList ++ session_user ++ "`@`".toList ++ host ++ "`".toList

/-- The end of the loop body of `verify_mysqlx_user_grants`, after `grants` was cut
down to the privilege list. -/
def grants_privileges (st : Grants_state) (grants : List Char) (on_all_schemas : Bool) :
    Grants_state :=
  let st1 : Grants_state :=
    if (string_find grants " ALL ".toList).isSome then
      { st with
        has_select_on_mysql_user := true,
        has_super := if on_all_schemas then true else st.has_super }
    else st
  let st2 : Grants_state :=
    if (string_find grants " SELECT ".toList).isSome ||
        (string_find grants " SELECT,".toList).isSome then
      { st1 with has_select_on_mysql_user := true }
    else st1
  if (string_find grants " SUPER ".toList).isSome ||
      (string_find grants " SUPER,".toList).isSome then
    { st2 with has_super := true }
  else st2

/-- One pass through the loop body of `verify_mysqlx_user_grants` for the row
`grants`. The count is reduced like every `int`; it is exact for a result of fewer
than `2^31` rows, and beyond that the increment overflows. -/
def grants_row (usage_row : List Char) (st : Grants_state) (grants : List Char) :
    Grants_state :=
  -- ++num_of_grants;
  let st1 : Grants_state := { st with num_of_grants := to_int32 (st.num_of_grants + 1) }
  let st2 : Grants_state :=
    if grants = usage_row then { st1 with has_no_privileges := true } else st1
  match string_find grants "ON *.*".toList with
  | some p => grants_privileges st2 (grants.take p) true
  | none =>
    match string_find grants "ON `mysql`.*".toList with
    | some p => grants_privileges st2 (grants.take p) false
    | none =>
      match string_find grants "ON `mysql`.`user`".toList with
      | some p => grants_privileges st2 (grants.take p) false
      | none => st2 -- continue

/-- The end of `verify_mysqlx_user_grants`, after the loop: returns normally or throws
one of the two errors. -/
def grants_verdict (st : Grants_state) : Except Grants_error Unit :=
  if st.has_select_on_mysql_user && st.has_super then Except.ok ()
  else if st.has_no_privileges &&
      (st.num_of_grants == 1 || (st.num_of_grants == 2 && st.has_select_on_mysql_user)) then
    Except.error .ER_X_MYSQLX_ACCOUNT_MISSING_PERMISSIONS
  else Except.error .ER_X_BAD_CONFIGURATION

/-- `Server::verify_mysqlx_user_grants` on the rows `SHOW GRANTS` returned, the first
one and the rest (the `do ... while` body runs for the first row before `next_row` is
asked): the loop over the rows, then the verdict. -/
def verify_mysqlx_user_grants (usage_row : List Char) (first : List Char)
    (rest : List (List Char)) : Except Grants_error Unit :=
  grants_verdict ((first :: rest).foldl (grants_row usage_row) ⟨0, false, false, false⟩)

/-- The privilege list of a row and whether its scope is every schema: the text before
`ON *.*` (every schema), or else before ``ON `mysql`.*`` or ``ON `mysql`.`user` ``;
nothing for a row with none of these. -/
def privilege_list (row : List Char) : Option (List Char × Bool) :=
  match string_find row "ON *.*".toList with
  | some p => some (row.take p, true)
  | none =>
    match string_find row "ON `mysql`.*".toList with
    | some p => some (row.take p, false)
    | none =>
      match string_find row "ON `mysql`.`user`".toList with
      | some p => some (row.take p, false)
      | none => none

/-- The privilege list names the privilege: the word between blanks, or followed by a
comma where the code looks for that. -/
def names_privilege (privileges word : List Char) (or_comma : Bool) : Bool :=
  (string_find privileges (' ' :: word ++ [' '])).isSome ||
    (or_comma && (string_find privileges (' ' :: word ++ [','])).isSome)

/-- The row grants `SELECT` or `ALL` on one of the three scopes. -/
def grants_select (row : List Char) : Bool :=
  match privilege_list row with
  | some (privileges, _) =>
    names_privilege privileges "ALL".toList false ||
      names_privilege privileges "SELECT".toList true
  | none => false

/-- The row grants `SUPER` on one of the three scopes, or `ALL` on every schema. -/
def grants_super (row : List Char) : Bool :=
  match privilege_list row with
  | some (privileges, on_all_schemas) =>
    names_privilege privileges "SUPER".toList true ||
      (on_all_schemas && names_privilege privileges "ALL".toList false)
  | none => false

end xpl

namespace im

/-! ## Snapshot clause (`sql/table_ext.h`) -/

/-- `Snapshot_type`. -/
inductive Snapshot_type where
  | SNAPSHOT_NONE
  | AS_OF_TIMESTAMP
  | AS_OF_SCN
  | AS_OF_GCN
deriving DecidableEq, Repr

/-- `Snapshot_info_t`: the type tag and the `uint64_t` storage that the members `ts`,
`scn` and `gcn` of the union `value` share. -/
structure Snapshot_info_t where
  type : Snapshot_type
  value : Nat
deriving DecidableEq, Repr

/-- The constructor `Snapshot_info_t()`: it sets the type only; `indeterminate` is
whatever the storage of `value` holds. -/
def Snapshot_info_t.new (indeterminate : Nat) : Snapshot_info_t :=
  ⟨.SNAPSHOT_NONE, indeterminate⟩

/-- `valid()`. -/
def Snapshot_info_t.valid (s : Snapshot_info_t) : Bool := s.type != .SNAPSHOT_NONE

/-- `get_type()`. -/
def Snapshot_info_t.get_type (s : Snapshot_info_t) : Snapshot_type := s.type

/-- `get_asof_timestamp()`: nothing when `DBUG_ASSERT(type == AS_OF_TIMESTAMP)` fails. -/
def Snapshot_info_t.get_asof_timestamp (s : Snapshot_info_t) : Option Nat :=
  if s.type = .AS_OF_TIMESTAMP then some s.value else none

/-- `get_asof_scn()`: nothing when `DBUG_ASSERT(type == AS_OF_SCN)` fails. -/
def Snapshot_info_t.get_asof_scn (s : Snapshot_info_t) : Option Nat :=
  if s.type = .AS_OF_SCN then some s.value else none

/-- `get_asof_gcn()`: nothing when `DBUG_ASSERT(type == AS_OF_GCN)` fails. -/
def Snapshot_info_t.get_asof_gcn (s : Snapshot_info_t) : Option Nat :=
  if s.type = .AS_OF_GCN then some s.value else none

/-- `reset()`: the type is cleared, the storage is left as it is. -/
def Snapshot_info_t.reset (s : Snapshot_info_t) : Snapshot_info_t :=
  { s with type := .SNAPSHOT_NONE }

/-- `set_timestamp(ts)`: nothing when `DBUG_ASSERT(type == SNAPSHOT_NONE)` fails. -/
def Snapshot_info_t.set_timestamp (s : Snapshot_info_t) (ts : Nat) : Option Snapshot_info_t :=
  if s.type = .SNAPSHOT_NONE then some ⟨.AS_OF_TIMESTAMP, ts⟩ else none

/-- `set_scn(scn)`: nothing when `DBUG_ASSERT(type == SNAPSHOT_NONE)` fails. -/
def Snapshot_info_t.set_scn (s : Snapshot_info_t) (scn : Nat) : Option Snapshot_info_t :=
  if s.type = .SNAPSHOT_NONE then some ⟨.AS_OF_SCN, scn⟩ else none

/-- `set_gcn(gcn)`: nothing when `DBUG_ASSERT(type == SNAPSHOT_NONE)` fails. -/
def Snapshot_info_t.set_gcn (s : Snapshot_info_t) (gcn : Nat) : Option Snapshot_info_t :=
  if s.type = .SNAPSHOT_NONE then some ⟨.AS_OF_GCN, gcn⟩ else none

end im

namespace xpl

/-! # Theorems -/

/-! ## Admission controller: proofs -/

theorem to_int32_of_range (z : Int) (h1 : -2147483648 ≤ z) (h2 : z < 2147483648) :
    to_int32 z = z := by
  unfold to_int32; omega

/-- Effect of `will_accept_client` where the increment does not leave `int`. -/
theorem will_accept_client_eq (M : Nat) (t : Bool) (s : Server)
    (hM : M < 2147483648) (h1 : -2147483648 ≤ s.m_num_of_connections)
    (h2 : s.m_num_of_connections < 2147483647) :
    will_accept_client M t s =
      if s.m_num_of_connections + 1 ≤ (M : Int) ∧ t = false then
        (true, { s with m_num_of_connections := s.m_num_of_connections + 1 })
      else (false, s) := by
  unfold will_accept_client
  have e1 : to_int32 (s.m_num_of_connections + 1) = s.m_num_of_connections + 1 :=
    to_int32_of_range _ (by omega) (by omega)
  have e2 : to_int32 (M : Int) = M := to_int32_of_range _ (by omega) (by omega)
  have e3 : to_int32 (s.m_num_of_connections + 1 - 1) = s.m_num_of_connections :=
    by rw [to_int32_of_range _ (by omega) (by omega)]; omega
  simp only [e1, e2, e3]
  cases t <;> by_cases h : s.m_num_of_connections + 1 ≤ (M : Int) <;> simp [h]

theorem admission_run_append (N : Nat) (a : Admission) (xs ys : List Admission_op) :
    admission_run N a (xs ++ ys) =
      (admission_run N a xs).bind (fun b => admission_run N b ys) := by
  induction xs generalizing a with
  | nil => simp [admission_run]
  | cons x xs ih =>
    simp only [List.cons_append, admission_run]
    cases admission_step N a x with
    | none => simp
    | some b => simpa using ih b

/-- While the limit is not reached, accepting clients one after the other counts them. -/
theorem admission_run_accepts (N : Nat) (hN : N < 2147483648) (k : Nat) (hk : k ≤ N) :
    admission_run N Admission.init (List.replicate k (Admission_op.will_accept false)) =
      some ⟨Global_status_variables.init, ⟨0, (k : Int)⟩, k⟩ := by
  induction k with
  | zero => rfl
  | succ k ih =>
    rw [List.replicate_succ', admission_run_append, ih (by omega)]
    simp only [Option.some_bind, admission_run, admission_step]
    rw [will_accept_client_eq N false _ hN (by simp; omega) (by simp; omega)]
    simp only [and_true]
    rw [if_pos (by omega)]
    simp

theorem admission_step_inv (N : Nat) (hN : N < 2147483647) (a b : Admission)
    (op : Admission_op) (ha : a.inv N) (hs : admission_step N a op = some b) : b.inv N := by
  obtain ⟨h1, h2⟩ := ha
  cases op with
  | will_accept t =>
    simp only [admission_step, Option.some.injEq] at hs
    rw [will_accept_client_eq N t _ (by omega) (by omega) (by omega)] at hs
    subst hs
    unfold Admission.inv
    by_cases h : a.server.m_num_of_connections + 1 ≤ (N : Int) ∧ t = false
    · simp only [if_pos h, if_true]
      constructor
      · simp [h1]
      · have := h.1; show a.live + 1 ≤ N; omega
    · simp only [if_neg h, Bool.false_eq_true, if_false]
      exact ⟨h1, h2⟩
  | client_closed =>
    simp only [admission_step] at hs
    split_ifs at hs with h
    simp only [Option.some.injEq] at hs
    subst hs
    unfold Admission.inv on_client_closed
    simp only
    rw [to_int32_of_range _ (by omega) (by omega)]
    omega

theorem admission_run_inv (N : Nat) (hN : N < 2147483647) (ops : List Admission_op)
    (a b : Admission) (ha : a.inv N) (hs : admission_run N a ops = some b) : b.inv N := by
  induction ops generalizing a with
  | nil => simp only [admission_run, Option.some.injEq] at hs; exact hs ▸ ha
  | cons op ops ih =>
    simp only [admission_run] at hs
    cases hc : admission_step N a op with
    | none => simp [hc] at hs
    | some c =>
      rw [hc] at hs
      exact ih c (admission_step_inv N hN a c op ha hc) hs

/-- C1, as amended. For a maximum `N` with `N + 1` representable as `int` and a
counter starting at 0, after every sequence of completed `will_accept_client` calls
(terminating or not) and `on_client_closed` calls (each for a client accepted and not
yet closed) the live connection counter is between 0 and `N`, and when it equals `N`
the next `will_accept_client` returns false. -/
theorem admission_limit_invariant (N : Nat) (hN : N + 1 < 2147483648)
    (ops : List Admission_op) (a : Admission)
    (hrun : admission_run N Admission.init ops = some a) :
    (0 ≤ a.server.m_num_of_connections ∧ a.server.m_num_of_connections ≤ (N : Int)) ∧
    (a.server.m_num_of_connections = (N : Int) →
      ∀ t, (will_accept_client N t a.server).1 = false) := by
  have h0 : Admission.init.inv N := ⟨rfl, Nat.zero_le N⟩
  obtain ⟨h1, h2⟩ := admission_run_inv N (by omega) ops Admission.init a h0 hrun
  refine ⟨⟨by omega, by omega⟩, ?_⟩
  intro hc t
  rw [will_accept_client_eq N t _ (by omega) (by omega) (by omega), if_neg (by omega)]

/-- C1, an instance: with a maximum of 2, three attempts, one close and one attempt
while the server terminates leave the counter at 1. -/
theorem admission_limit_invariant_witness :
    (0 ≤ (1 : Int) ∧ (1 : Int) ≤ ((2 : Nat) : Int)) ∧
    ((1 : Int) = ((2 : Nat) : Int) →
      ∀ t, (will_accept_client 2 t ⟨0, 1⟩).1 = false) :=
  admission_limit_invariant 2 (by decide)
    [.will_accept false, .will_accept false, .will_accept false, .client_closed,
      .will_accept true]
    ⟨⟨0, 1, 0, 0, 0⟩, ⟨0, 1⟩, 1⟩ (by decide)

/-- C1 as stated fails for `N = 2147483647`, the largest `int`: after that many
accepted clients the counter equals `N`, and the next `will_accept_client` returns
true and leaves the counter negative. -/
theorem admission_limit_fails_at_int_max :
    ∃ a, admission_run 2147483647 Admission.init
        (List.replicate 2147483647 (Admission_op.will_accept false)) = some a ∧
      a.server.m_num_of_connections = 2147483647 ∧
      (will_accept_client 2147483647 false a.server).1 = true ∧
      (will_accept_client 2147483647 false a.server).2.m_num_of_connections < 0 :=
  ⟨_, admission_run_accepts 2147483647 (by decide) 2147483647 (Nat.le_refl _), rfl,
    by decide, by decide⟩

/-- C2, as amended. For every counter value `c` such that both `c` and `c + 1` are
representable as `int` and every maximum `M` representable as `int`,
`will_accept_client` returns true exactly when `c + 1 <= M` and the server is not
terminating; the counter afterwards is `c + 1` when it returns true and `c` when it
returns false, and the client-id counter is not touched. -/
theorem will_accept_client_postcondition (M : Nat) (t : Bool) (s : Server)
    (hM : M < 2147483648) (h1 : -2147483648 ≤ s.m_num_of_connections)
    (h2 : s.m_num_of_connections + 1 < 2147483648) :
    ((will_accept_client M t s).1 = true ↔
      (s.m_num_of_connections + 1 ≤ (M : Int) ∧ t = false)) ∧
    ((will_accept_client M t s).1 = true →
      (will_accept_client M t s).2.m_num_of_connections = s.m_num_of_connections + 1) ∧
    ((will_accept_client M t s).1 = false →
      (will_accept_client M t s).2.m_num_of_connections = s.m_num_of_connections) ∧
    (will_accept_client M t s).2.m_client_id = s.m_client_id := by
  rw [will_accept_client_eq M t s hM h1 (by omega)]
  by_cases h : s.m_num_of_connections + 1 ≤ (M : Int) ∧ t = false
  · simp [if_pos h, h]
  · simp [if_neg h, h]

/-- C2, instances: at counter 2 with maximum 3 a client is accepted when the server is
not terminating and the counter becomes 3. -/
theorem will_accept_client_postcondition_witness :
    ((will_accept_client 3 false ⟨0, 2⟩).1 = true ↔
      ((2 : Int) + 1 ≤ ((3 : Nat) : Int) ∧ false = false)) ∧
    ((will_accept_client 3 false ⟨0, 2⟩).1 = true →
      (will_accept_client 3 false ⟨0, 2⟩).2.m_num_of_connections = (2 : Int) + 1) ∧
    ((will_accept_client 3 false ⟨0, 2⟩).1 = false →
      (will_accept_client 3 false ⟨0, 2⟩).2.m_num_of_connections = (2 : Int)) ∧
    (will_accept_client 3 false ⟨0, 2⟩).2.m_client_id = 0 :=
  will_accept_client_postcondition 3 false ⟨0, 2⟩ (by decide) (by decide) (by decide)

/-- C2 as stated fails at the counter value `c = 2147483647` with maximum `M = 0` and a
server that is not terminating: `c + 1 <= M` is false, yet the call returns true, and
the counter afterwards is `-2147483648`, not `c + 1`. -/
theorem will_accept_client_wraps_at_int_max :
    (will_accept_client 0 false ⟨0, 2147483647⟩).1 = true ∧
    ¬ ((2147483647 : Int) + 1 ≤ ((0 : Nat) : Int)) ∧
    (will_accept_client 0 false ⟨0, 2147483647⟩).2.m_num_of_connections = -2147483648 ∧
    (will_accept_client 0 false ⟨0, 2147483647⟩).2.m_num_of_connections ≠
      (2147483647 : Int) + 1 := by
  decide

/-! ## Kill-connection protocol: proofs -/

theorem Client_list.find_none (clients : List Client) (id : Nat)
    (h : ∀ c ∈ clients, c.client_id ≠ id) : Client_list.find clients id = none := by
  unfold Client_list.find
  rw [List.find?_eq_none]
  intro c hc
  simpa using h c hc

theorem Client_list.find_some_id (clients : List Client) (id : Nat) (c : Client)
    (h : Client_list.find clients id = some c) : c.client_id = id := by
  unfold Client_list.find at h
  simpa using List.find?_some h

theorem is_error_denied (m : String) : (Error ER_KILL_DENIED_ERROR m).is_error = true := by
  simp [Error, Error_code.is_error, ER_KILL_DENIED_ERROR]

theorem denied_ne_success (m : String) : Error ER_KILL_DENIED_ERROR m ≠ Success := by
  simp [Error, Success, ER_KILL_DENIED_ERROR]

theorem is_error_success : Success.is_error = false := by
  simp [Success, Error_code.is_error]

theorem ne_success_of_is_error (e : Error_code) (h : e.is_error = true) : e ≠ Success := by
  intro h2; rw [h2, is_error_success] at h; cases h

theorem kill_client_no_session (clients : List Client) (env : Kill_env)
    (client_id requester_id : Nat) (c : Client)
    (hc : Client_list.find clients client_id = some c)
    (hs : c.state ≠ Client_state.k_closed) (hne : client_id ≠ requester_id)
    (hsess : c.session = none) :
    kill_client clients env client_id requester_id =
      (Error ER_KILL_DENIED_ERROR ("Cannot kill client " ++ format_llu client_id),
        [.lock_exit_mutex, .lock_session_exit_mutex c.client_id,
          .unlock_session_exit_mutex c.client_id, .unlock_exit_mutex]) := by
  simp only [kill_client, hc, hsess, hne, if_neg, if_pos hs]
  rfl

theorem kill_client_request_error (clients : List Client) (env : Kill_env)
    (client_id requester_id : Nat) (c : Client)
    (hc : Client_list.find clients client_id = some c)
    (hs : c.state ≠ Client_state.k_closed) (hne : client_id ≠ requester_id)
    (s : Session) (hsess : c.session = some s)
    (herr : (env.execute_kill_sql_session s.mysql_session_id).is_error = true) :
    kill_client clients env client_id requester_id =
      (env.execute_kill_sql_session s.mysql_session_id,
        [.lock_exit_mutex, .lock_session_exit_mutex c.client_id,
          .unlock_session_exit_mutex c.client_id,
          .execute_kill_sql_session s.mysql_session_id, .unlock_exit_mutex]) := by
  simp only [kill_client, hc, hsess, hne, if_neg, if_pos hs, herr, if_true]
  rfl

theorem kill_client_killed (clients : List Client) (env : Kill_env)
    (client_id requester_id : Nat) (c : Client)
    (hc : Client_list.find clients client_id = some c)
    (hs : c.state ≠ Client_state.k_closed) (hne : client_id ≠ requester_id)
    (s s2 : Session) (hsess : c.session = some s)
    (herr : (env.execute_kill_sql_session s.mysql_session_id).is_error = false)
    (hre : env.session_at_recheck = some s2) (hk : s2.is_killed = true) :
    kill_client clients env client_id requester_id =
      (Success,
        [.lock_exit_mutex, .lock_session_exit_mutex c.client_id,
          .unlock_session_exit_mutex c.client_id,
          .execute_kill_sql_session s.mysql_session_id,
          .lock_session_exit_mutex c.client_id, .unlock_session_exit_mutex c.client_id,
          .kill c.client_id, .unlock_exit_mutex]) := by
  simp only [kill_client, hc, hsess, hne, if_neg, if_pos hs, herr, hre, hk, if_true]
  rfl

theorem kill_client_not_killed (clients : List Client) (env : Kill_env)
    (client_id requester_id : Nat) (c : Client)
    (hc : Client_list.find clients client_id = some c)
    (hs : c.state ≠ Client_state.k_closed) (hne : client_id ≠ requester_id)
    (s : Session) (hsess : c.session = some s)
    (herr : (env.execute_kill_sql_session s.mysql_session_id).is_error = false)
    (hre : ∀ s2, env.session_at_recheck = some s2 → s2.is_killed = false) :
    kill_client clients env client_id requester_id =
      (Error ER_KILL_DENIED_ERROR ("Cannot kill client " ++ format_llu client_id),
        [.lock_exit_mutex, .lock_session_exit_mutex c.client_id,
          .unlock_session_exit_mutex c.client_id,
          .execute_kill_sql_session s.mysql_session_id,
          .lock_session_exit_mutex c.client_id, .unlock_session_exit_mutex c.client_id,
          .unlock_exit_mutex]) := by
  have hk : (match env.session_at_recheck with
      | some s => s.is_killed
      | none => false) = false := by
    cases h : env.session_at_recheck with
    | none => rfl
    | some s2 => exact hre s2 h
  simp only [kill_client, hc, hsess, hne, if_neg, if_pos hs, herr, hk]
  rfl


/-- C3. For every target id that is absent from the client registry, and for every
target id whose registered client is in state closed, `kill_client` returns the
not-found result `ER_NO_SUCH_THREAD`, whoever the requester is (its own id included);
no client is signalled to terminate and no kill request is issued. -/
theorem kill_client_not_found (clients : List Client) (env : Kill_env)
    (client_id requester_id : Nat)
    (h : (∀ c ∈ clients, c.client_id ≠ client_id) ∨
      (∃ c, Client_list.find clients client_id = some c ∧ c.state = Client_state.k_closed)) :
    (kill_client clients env client_id requester_id).1 =
      Error ER_NO_SUCH_THREAD ("Unknown MySQLx client id " ++ format_llu client_id) ∧
    (∀ e ∈ (kill_client clients env client_id requester_id).2,
      e.is_kill = false ∧ e.is_kill_request = false) := by
  rcases h with h | ⟨c, hc, hs⟩
  · simp [kill_client, Client_list.find_none clients client_id h, Error, Kill_event.is_kill,
      Kill_event.is_kill_request]
  · simp [kill_client, hc, hs, Error, Kill_event.is_kill, Kill_event.is_kill_request]

/-- C3, instances: id 9 is not registered, and id 2, the requester's own, is registered
in state closed. -/
theorem kill_client_not_found_witness :
    ((kill_client [⟨1, .k_running, none⟩, ⟨2, .k_closed, some ⟨7, false⟩⟩]
          ⟨fun _ => Success, some ⟨7, true⟩⟩ 9 1).1 =
        Error ER_NO_SUCH_THREAD ("Unknown MySQLx client id " ++ format_llu 9) ∧
      ∀ e ∈ (kill_client [⟨1, .k_running, none⟩, ⟨2, .k_closed, some ⟨7, false⟩⟩]
          ⟨fun _ => Success, some ⟨7, true⟩⟩ 9 1).2,
        e.is_kill = false ∧ e.is_kill_request = false) ∧
    ((kill_client [⟨1, .k_running, none⟩, ⟨2, .k_closed, some ⟨7, false⟩⟩]
          ⟨fun _ => Success, some ⟨7, true⟩⟩ 2 2).1 =
        Error ER_NO_SUCH_THREAD ("Unknown MySQLx client id " ++ format_llu 2) ∧
      ∀ e ∈ (kill_client [⟨1, .k_running, none⟩, ⟨2, .k_closed, some ⟨7, false⟩⟩]
          ⟨fun _ => Success, some ⟨7, true⟩⟩ 2 2).2,
        e.is_kill = false ∧ e.is_kill_request = false) :=
  ⟨kill_client_not_found _ _ 9 1 (Or.inl (by decide)),
    kill_client_not_found _ _ 2 2 (Or.inr ⟨⟨2, .k_closed, some ⟨7, false⟩⟩, by decide, rfl⟩)⟩

/-- C4. For every requester whose own client is registered and not closed,
`kill_client` with the requester's own id returns success and signals that client to
terminate exactly once, and issues no kill request, whatever session the client holds
and whatever the kill request or the second look would have answered. -/
theorem kill_client_self (clients : List Client) (env : Kill_env) (requester_id : Nat)
    (c : Client) (hc : Client_list.find clients requester_id = some c)
    (hs : c.state ≠ Client_state.k_closed) :
    (kill_client clients env requester_id requester_id).1 = Success ∧
    (kill_client clients env requester_id requester_id).2.filter Kill_event.is_kill =
      [Kill_event.kill requester_id] ∧
    (∀ e ∈ (kill_client clients env requester_id requester_id).2,
      e.is_kill_request = false) := by
  have hid := Client_list.find_some_id clients requester_id c hc
  simp [kill_client, hc, hs, Kill_event.is_kill, Kill_event.is_kill_request, hid]

/-- C4, an instance: client 1 kills itself while every kill request would be refused. -/
theorem kill_client_self_witness :
    (kill_client [⟨1, .k_running, some ⟨7, false⟩⟩]
        ⟨fun _ => Error ER_KILL_DENIED_ERROR "denied", none⟩ 1 1).1 = Success ∧
    (kill_client [⟨1, .k_running, some ⟨7, false⟩⟩]
        ⟨fun _ => Error ER_KILL_DENIED_ERROR "denied", none⟩ 1 1).2.filter
      Kill_event.is_kill = [Kill_event.kill 1] ∧
    (∀ e ∈ (kill_client [⟨1, .k_running, some ⟨7, false⟩⟩]
        ⟨fun _ => Error ER_KILL_DENIED_ERROR "denied", none⟩ 1 1).2,
      e.is_kill_request = false) :=
  kill_client_self _ _ 1 ⟨1, .k_running, some ⟨7, false⟩⟩ (by decide) (by decide)

/-- C5. For every registered, non-closed target other than the requester that holds a
session, when the kill request on the target's database session returns an error,
`kill_client` returns that same error unchanged and does not signal the target. -/
theorem kill_client_denied (clients : List Client) (env : Kill_env)
    (client_id requester_id : Nat) (c : Client) (s : Session)
    (hc : Client_list.find clients client_id = some c)
    (hs : c.state ≠ Client_state.k_closed) (hne : client_id ≠ requester_id)
    (hsess : c.session = some s)
    (herr : (env.execute_kill_sql_session s.mysql_session_id).is_error = true) :
    (kill_client clients env client_id requester_id).1 =
      env.execute_kill_sql_session s.mysql_session_id ∧
    (∀ e ∈ (kill_client clients env client_id requester_id).2, e.is_kill = false) := by
  simp [kill_client, hc, hs, hne, hsess, herr, Kill_event.is_kill]

/-- C5, an instance: client 1 asks to kill client 2 and the kill request is refused. -/
theorem kill_client_denied_witness :
    (kill_client [⟨1, .k_running, none⟩, ⟨2, .k_running, some ⟨7, false⟩⟩]
        ⟨fun _ => Error ER_KILL_DENIED_ERROR "denied", some ⟨7, false⟩⟩ 2 1).1 =
      Error ER_KILL_DENIED_ERROR "denied" ∧
    (∀ e ∈ (kill_client [⟨1, .k_running, none⟩, ⟨2, .k_running, some ⟨7, false⟩⟩]
        ⟨fun _ => Error ER_KILL_DENIED_ERROR "denied", some ⟨7, false⟩⟩ 2 1).2,
      e.is_kill = false) :=
  kill_client_denied _ _ 2 1 ⟨2, .k_running, some ⟨7, false⟩⟩ ⟨7, false⟩ (by decide)
    (by decide) (by decide) rfl (by decide)

/-- C6. For every registered, non-closed target other than the requester:
`kill_client` returns success and signals the target exactly when the kill is
confirmed (a session at the first look, a kill request without error, a session that
reports itself killed at the second look), and its result is free of error exactly
then; a target without session gets no kill request; and whenever no kill-request
error occurred and the kill is not confirmed the result is `ER_KILL_DENIED_ERROR` with
the target not signalled. -/
theorem kill_client_other (clients : List Client) (env : Kill_env)
    (client_id requester_id : Nat) (c : Client)
    (hc : Client_list.find clients client_id = some c)
    (hs : c.state ≠ Client_state.k_closed) (hne : client_id ≠ requester_id) :
    (((kill_client clients env client_id requester_id).1 = Success ∧
        (kill_client clients env client_id requester_id).2.filter Kill_event.is_kill =
          [Kill_event.kill client_id]) ↔ kill_confirmed c env) ∧
    ((kill_client clients env client_id requester_id).1.is_error = false ↔
      kill_confirmed c env) ∧
    (c.session = none →
      ∀ e ∈ (kill_client clients env client_id requester_id).2, e.is_kill_request = false) ∧
    ((∀ s, c.session = some s →
        (env.execute_kill_sql_session s.mysql_session_id).is_error = false) →
      ¬ kill_confirmed c env →
      (kill_client clients env client_id requester_id).1 =
          Error ER_KILL_DENIED_ERROR ("Cannot kill client " ++ format_llu client_id) ∧
        ∀ e ∈ (kill_client clients env client_id requester_id).2, e.is_kill = false) := by
  have hid := Client_list.find_some_id clients client_id c hc
  cases hsess : c.session with
  | none =>
    have hn : ¬ kill_confirmed c env := by
      rintro ⟨s, s2, h, -⟩; rw [hsess] at h; cases h
    rw [kill_client_no_session clients env client_id requester_id c hc hs hne hsess]
    simp [hn, is_error_denied, denied_ne_success, Kill_event.is_kill,
      Kill_event.is_kill_request]
  | some s =>
    cases herr : (env.execute_kill_sql_session s.mysql_session_id).is_error with
    | true =>
      have hn : ¬ kill_confirmed c env := by
        rintro ⟨s1, s2, h, h2, -⟩
        rw [hsess] at h; cases h; rw [herr] at h2; cases h2
      rw [kill_client_request_error clients env client_id requester_id c hc hs hne s hsess herr]
      simp [hn, herr, ne_success_of_is_error _ herr, Kill_event.is_kill]
    | false =>
      by_cases hre : ∃ s2, env.session_at_recheck = some s2 ∧ s2.is_killed = true
      · obtain ⟨s2, h1, h2⟩ := hre
        have hy : kill_confirmed c env := ⟨s, s2, hsess, herr, h1, h2⟩
        rw [kill_client_killed clients env client_id requester_id c hc hs hne s s2 hsess herr
          h1 h2]
        simp [hy, is_error_success, Kill_event.is_kill, hid]
      · have hre2 : ∀ s2, env.session_at_recheck = some s2 → s2.is_killed = false := by
          intro s2 h
          cases hk : s2.is_killed with
          | false => rfl
          | true => exact absurd ⟨s2, h, hk⟩ hre
        have hn : ¬ kill_confirmed c env := by
          rintro ⟨s1, s2, -, -, h3, h4⟩
          exact hre ⟨s2, h3, h4⟩
        rw [kill_client_not_killed clients env client_id requester_id c hc hs hne s hsess herr
          hre2]
        simp [hn, is_error_denied, denied_ne_success, Kill_event.is_kill]

/-- C6, an instance: client 1 kills client 2, whose session then reports itself killed. -/
theorem kill_client_other_witness :
    (kill_client [⟨1, .k_running, none⟩, ⟨2, .k_running, some ⟨7, false⟩⟩]
        ⟨fun _ => Success, some ⟨7, true⟩⟩ 2 1).1 = Success ∧
    (kill_client [⟨1, .k_running, none⟩, ⟨2, .k_running, some ⟨7, false⟩⟩]
        ⟨fun _ => Success, some ⟨7, true⟩⟩ 2 1).2.filter Kill_event.is_kill =
      [Kill_event.kill 2] :=
  (kill_client_other [⟨1, .k_running, none⟩, ⟨2, .k_running, some ⟨7, false⟩⟩]
      ⟨fun _ => Success, some ⟨7, true⟩⟩ 2 1 ⟨2, .k_running, some ⟨7, false⟩⟩
      (by decide) (by decide) (by decide)).1.2
    ⟨⟨7, false⟩, ⟨7, true⟩, rfl, rfl, rfl, rfl⟩

/-- C7, as amended. For every target id, requester, registry and session state and
every outcome of the kill request, the value `kill_client` returns is success, the
not-found result `ER_NO_SUCH_THREAD`, the kill-denied result `ER_KILL_DENIED_ERROR`,
or, when the kill request was issued and returned an error, that error unchanged. -/
theorem kill_client_result_codes (clients : List Client) (env : Kill_env)
    (client_id requester_id : Nat) :
    (kill_client clients env client_id requester_id).1 = Success ∨
    (kill_client clients env client_id requester_id).1 =
      Error ER_NO_SUCH_THREAD ("Unknown MySQLx client id " ++ format_llu client_id) ∨
    (kill_client clients env client_id requester_id).1 =
      Error ER_KILL_DENIED_ERROR ("Cannot kill client " ++ format_llu client_id) ∨
    (∃ c s, Client_list.find clients client_id = some c ∧ c.session = some s ∧
      (env.execute_kill_sql_session s.mysql_session_id).is_error = true ∧
      (kill_client clients env client_id requester_id).1 =
        env.execute_kill_sql_session s.mysql_session_id ∧
      Kill_event.execute_kill_sql_session s.mysql_session_id ∈
        (kill_client clients env client_id requester_id).2) := by
  cases hc : Client_list.find clients client_id with
  | none => right; left; simp [kill_client, hc]
  | some c =>
    by_cases hs : c.state = Client_state.k_closed
    · right; left; simp [kill_client, hc, hs]
    · by_cases hne : client_id = requester_id
      · left; subst hne; simp [kill_client, hc, hs]
      · cases hsess : c.session with
        | none =>
          right; right; left
          rw [kill_client_no_session clients env client_id requester_id c hc hs hne hsess]
        | some s =>
          cases herr : (env.execute_kill_sql_session s.mysql_session_id).is_error with
          | true =>
            right; right; right
            refine ⟨c, s, rfl, hsess, herr, ?_⟩
            rw [kill_client_request_error clients env client_id requester_id c hc hs hne s
              hsess herr]
            simp
          | false =>
            by_cases hre : ∃ s2, env.session_at_recheck = some s2 ∧ s2.is_killed = true
            · obtain ⟨s2, h1, h2⟩ := hre
              left
              rw [kill_client_killed clients env client_id requester_id c hc hs hne s s2 hsess
                herr h1 h2]
            · have hre2 : ∀ s2, env.session_at_recheck = some s2 → s2.is_killed = false := by
                intro s2 h
                cases hk : s2.is_killed with
                | false => rfl
                | true => exact absurd ⟨s2, h, hk⟩ hre
              right; right; left
              rw [kill_client_not_killed clients env client_id requester_id c hc hs hne s hsess
                herr hre2]

/-- C7 as stated fails when the kill request returns an error with another code:
client 1 asks to kill client 2 and the request ends with code 1317; `kill_client`
returns code 1317, which is none of 0, `ER_NO_SUCH_THREAD`, `ER_KILL_DENIED_ERROR`. -/
theorem kill_client_returns_foreign_code :
    (kill_client [⟨1, .k_running, none⟩, ⟨2, .k_running, some ⟨7, false⟩⟩]
        ⟨fun _ => Error 1317 "Query execution was interrupted", some ⟨7, false⟩⟩ 2 1).1 =
      Error 1317 "Query execution was interrupted" ∧
    (Error 1317 "Query execution was interrupted").error ≠ Success.error ∧
    (Error 1317 "Query execution was interrupted").error ≠ ER_NO_SUCH_THREAD ∧
    (Error 1317 "Query execution was interrupted").error ≠ ER_KILL_DENIED_ERROR := by
  decide

/-! ## Bind address and startup: proofs -/

theorem strchr_eq_none (s : List Char) (c : Char) (h : c ∉ s) : strchr s c = none := by
  induction s with
  | nil => rfl
  | cons x xs ih =>
    simp only [List.mem_cons, not_or] at h
    simp [strchr, Ne.symm h.1, ih h.2]

/-- Where `strchr` finds the character: right after a prefix that does not hold it. -/
theorem strchr_append (h n : List Char) (c : Char) (hc : c ∉ h) :
    strchr (h ++ c :: n) c = some h.length := by
  induction h with
  | nil => simp [strchr]
  | cons x xs ih =>
    simp only [List.mem_cons, not_or] at hc
    simp [strchr, Ne.symm hc.1, ih hc.2]

/-- A string splits at the offset `strchr` returns. -/
theorem strchr_split (s : List Char) (c : Char) (i : Nat) (h : strchr s c = some i) :
    s = s.take i ++ c :: s.drop (i + 1) ∧ c ∉ s.take i := by
  induction s generalizing i with
  | nil => simp [strchr] at h
  | cons x xs ih =>
    by_cases hx : x = c
    · simp only [strchr, hx, if_true, Option.some.injEq] at h
      subst h; simp [hx]
    · simp only [strchr, hx, if_false, Option.map_eq_some'] at h
      obtain ⟨j, hj, rfl⟩ := h
      obtain ⟨h1, h2⟩ := ih j hj
      refine ⟨?_, ?_⟩
      · simp only [List.take_succ_cons, List.drop_succ_cons, List.cons_append]
        rw [← h1]
      · simp only [List.take_succ_cons, List.mem_cons, not_or]
        exact ⟨Ne.symm hx, h2⟩

theorem strchr_mem (s : List Char) (c : Char) (h : c ∈ s) : ∃ i, strchr s c = some i := by
  cases hh : strchr s c with
  | some i => exact ⟨i, rfl⟩
  | none =>
    exfalso
    induction s with
    | nil => simp at h
    | cons x xs ih =>
      by_cases hx : x = c
      · simp [strchr, hx] at hh
      · simp only [strchr, hx, if_false, Option.map_eq_none'] at hh
        simp only [List.mem_cons] at h
        rcases h with h | h
        · exact hx h.symm
        · exact ih h hh

/-- What the parser does with a string that has a `/`, split at the first one. -/
theorem parse_bind_address_value_split (h n a ns : List Char) (hc : '/' ∉ h) :
    parse_bind_address_value (h ++ '/' :: n) a ns =
      if h = [] ∨ n = [] then (true, a, ns) else (false, h, n) := by
  unfold parse_bind_address_value
  rw [strchr_append h n '/' hc]
  simp only
  by_cases hh : h = []
  · subst hh; simp
  · have hl : h.length ≠ 0 := by simpa using hh
    rw [if_neg hl]
    by_cases hn : n = []
    · subst hn; simp [hh]
    · obtain ⟨y, ys, rfl⟩ := List.exists_cons_of_ne_nil hn
      simp [hh]

theorem parse_bind_address_value_no_slash (s a ns : List Char) (hc : '/' ∉ s) :
    parse_bind_address_value s a ns = (false, s, ns) := by
  unfold parse_bind_address_value
  rw [strchr_eq_none s '/' hc]

/-- C8. `parse_bind_address_value` reports a parse error (returns true) exactly when
the input has a `/` and nothing precedes its first `/` or nothing follows its first
`/`: the input splits as `h ++ '/' :: n` with no `/` in `h` and `h` or `n` empty.
Every other input parses (returns false). `"/ns1"` and `"eth0/"` are parse errors. -/
theorem parse_bind_address_value_error_iff (s a ns : List Char) :
    ((parse_bind_address_value s a ns).1 = true ↔
      ∃ h n, s = h ++ '/' :: n ∧ '/' ∉ h ∧ (h = [] ∨ n = [])) ∧
    (parse_bind_address_value "/ns1".toList a ns).1 = true ∧
    (parse_bind_address_value "eth0/".toList a ns).1 = true := by
  refine ⟨?_, rfl, rfl⟩
  constructor
  · intro hp
    by_cases hc : '/' ∈ s
    · obtain ⟨i, hi⟩ := strchr_mem s '/' hc
      obtain ⟨h1, h2⟩ := strchr_split s '/' i hi
      refine ⟨s.take i, s.drop (i + 1), h1, h2, ?_⟩
      rw [h1, parse_bind_address_value_split _ _ a ns h2] at hp
      by_contra hcon
      rw [if_neg hcon] at hp
      cases hp
    · rw [parse_bind_address_value_no_slash s a ns hc] at hp
      cases hp
  · rintro ⟨h, n, rfl, hc, hor⟩
    rw [parse_bind_address_value_split h n a ns hc, if_pos hor]

/-- C9. With both outputs empty before the call: for an input `s` without `/` the
parse succeeds with the host equal to `s` and the namespace empty; for an input
`h ++ '/' :: n` split at its first `/` that parses successfully, the host is `h`, the
namespace is `n`, and both are non-empty. `"127.0.0.1"` gives host `"127.0.0.1"` and an
empty namespace; `"eth0/ns1"` gives host `"eth0"` and namespace `"ns1"`. -/
theorem parse_bind_address_value_result (s h n : List Char) :
    ('/' ∉ s → parse_bind_address_value s [] [] = (false, s, [])) ∧
    ('/' ∉ h → (parse_bind_address_value (h ++ '/' :: n) [] []).1 = false →
      parse_bind_address_value (h ++ '/' :: n) [] [] = (false, h, n) ∧ h ≠ [] ∧ n ≠ []) ∧
    parse_bind_address_value "127.0.0.1".toList [] [] = (false, "127.0.0.1".toList, []) ∧
    parse_bind_address_value "eth0/ns1".toList [] [] =
      (false, "eth0".toList, "ns1".toList) := by
  refine ⟨parse_bind_address_value_no_slash s [] [], ?_, rfl, rfl⟩
  intro hc hp
  rw [parse_bind_address_value_split h n [] [] hc] at hp ⊢
  by_cases hor : h = [] ∨ n = []
  · rw [if_pos hor] at hp; cases hp
  · rw [if_neg hor]
    exact ⟨rfl, fun e => hor (Or.inl e), fun e => hor (Or.inr e)⟩

/-- C9, instances: `"localhost"` has no `/`; `"eth0/ns1/x"` is split at its first `/`. -/
theorem parse_bind_address_value_result_witness :
    parse_bind_address_value "localhost".toList [] [] = (false, "localhost".toList, []) ∧
    (parse_bind_address_value ("eth0".toList ++ '/' :: "ns1/x".toList) [] [] =
        (false, "eth0".toList, "ns1/x".toList) ∧
      "eth0".toList ≠ [] ∧ "ns1/x".toList ≠ []) :=
  ⟨(parse_bind_address_value_result "localhost".toList "eth0".toList "ns1/x".toList).1
      (by decide),
    (parse_bind_address_value_result "localhost".toList "eth0".toList "ns1/x".toList).2.1
      (by decide) (by decide)⟩

theorem run_steps_mem (throws : Startup_event → Bool) (l : List Startup_event)
    (e : Startup_event) (h : e ∈ (run_steps throws l).1) : e ∈ l := by
  induction l with
  | nil => simp [run_steps] at h
  | cons x xs ih =>
    simp only [run_steps] at h
    split_ifs at h with hx
    · simp at h
    · simp only [List.mem_cons] at h ⊢
      rcases h with h | h
      · exact Or.inl h
      · exact Or.inr (ih h)

theorem run_steps_no_throw (l : List Startup_event) :
    run_steps (fun _ => false) l = (l, false) := by
  induction l with
  | nil => rfl
  | cons x xs ih => simp [run_steps, ih]

theorem before_parse_not_past_config (throws : Startup_event → Bool) (e : Startup_event)
    (h : e ∈ (run_steps throws startup_steps_before_parse).1) : e.is_past_config = false := by
  have := run_steps_mem throws _ e h
  simp only [startup_steps_before_parse, List.mem_cons, List.mem_singleton,
    List.not_mem_nil, or_false] at this
  rcases this with h | h | h | h | h | h | h <;> subst h <;> rfl

/-- C10. `plugin_main` returns 1 whenever the bind address fails to parse, and whenever
it parses to a non-empty namespace with a host that `check_address_is_wildcard` calls
wildcard; in both cases no `Server` is created, the instance write lock is not taken
and no scheduler is launched. With an empty namespace the wildcard error is never
logged, whatever the host is, and when no step throws startup returns 0 with the
`Server` created. -/
theorem plugin_main_config_errors (check_address_is_wildcard : List Char → Bool)
    (throws : Startup_event → Bool) (cache_plugin_started : Bool)
    (max_connections : Nat) (bind_address : List Char) :
    ((parse_bind_address_value bind_address [] []).1 = true ∨
      ((parse_bind_address_value bind_address [] []).1 = false ∧
        (parse_bind_address_value bind_address [] []).2.2 ≠ [] ∧
        check_address_is_wildcard (parse_bind_address_value bind_address [] []).2.1 = true) →
      (plugin_main check_address_is_wildcard throws cache_plugin_started max_connections
          bind_address).1 = 1 ∧
      ∀ e ∈ (plugin_main check_address_is_wildcard throws cache_plugin_started
          max_connections bind_address).2,
        e.is_server_created = false ∧ e.is_wlock = false ∧ e.is_launch = false) ∧
    ((parse_bind_address_value bind_address [] []).1 = false →
      (parse_bind_address_value bind_address [] []).2.2 = [] →
      Startup_event.log_error Log_code.ER_NETWORK_NAMESPACE_NOT_ALLOWED_FOR_WILDCARD_ADDRESS ∉
        (plugin_main check_address_is_wildcard throws cache_plugin_started max_connections
          bind_address).2 ∧
      ((∀ e, throws e = false) →
        (plugin_main check_address_is_wildcard throws cache_plugin_started max_connections
          bind_address).1 = 0 ∧
        Startup_event.allocate_server ∈
          (plugin_main check_address_is_wildcard throws cache_plugin_started max_connections
            bind_address).2)) := by
  have hb := before_parse_not_past_config throws
  have hpc : ∀ e : Startup_event, e.is_past_config = false →
      e.is_server_created = false ∧ e.is_wlock = false ∧ e.is_launch = false := by
    intro e he
    simp only [Startup_event.is_past_config, Bool.or_eq_false_iff] at he
    exact ⟨he.1.1, he.1.2, he.2⟩
  have hbl : ∀ e ∈ (run_steps throws startup_steps_before_parse).1,
      e ≠ Startup_event.log_error
        Log_code.ER_NETWORK_NAMESPACE_NOT_ALLOWED_FOR_WILDCARD_ADDRESS := by
    intro e he hEq
    have := run_steps_mem throws _ e he
    subst hEq
    simp [startup_steps_before_parse] at this
  constructor
  · intro hcfg
    unfold plugin_main
    simp only
    by_cases h1 : (run_steps throws startup_steps_before_parse).2 = true
    · rw [if_pos h1]
      refine ⟨rfl, ?_⟩
      intro e he
      simp only [List.mem_append] at he
      rcases he with he | he
      · exact hpc e (hb e he)
      · simp only [startup_catch, Bool.false_eq_true, if_false, List.nil_append, List.mem_cons,
          List.mem_singleton, List.not_mem_nil, or_false] at he
        rcases he with he | he <;> subst he <;> exact ⟨rfl, rfl, rfl⟩
    · rw [if_neg h1]
      rcases hcfg with hp | ⟨hp, hns, hw⟩
      · rw [if_pos hp]
        refine ⟨rfl, ?_⟩
        intro e he
        simp only [List.mem_append, List.mem_singleton] at he
        rcases he with he | he
        · exact hpc e (hb e he)
        · subst he; exact ⟨rfl, rfl, rfl⟩
      · have hp2 : ¬ (parse_bind_address_value bind_address [] []).1 = true := by
          rw [hp]; simp
        have hns2 : (parse_bind_address_value bind_address [] []).2.2.isEmpty = false := by
          cases hl : (parse_bind_address_value bind_address [] []).2.2 with
          | nil => exact absurd hl hns
          | cons x xs => rfl
        rw [if_neg hp2, hns2, hw]
        simp only [Bool.not_false, Bool.and_self, if_true]
        refine ⟨trivial, ?_⟩
        intro e he
        simp only [List.mem_append, List.mem_singleton] at he
        rcases he with he | he
        · exact hpc e (hb e he)
        · subst he; exact ⟨rfl, rfl, rfl⟩
  · intro hp hns
    have hp2 : ¬ (parse_bind_address_value bind_address [] []).1 = true := by
      rw [hp]; simp
    constructor
    · unfold plugin_main
      simp only
      by_cases h1 : (run_steps throws startup_steps_before_parse).2 = true
      · rw [if_pos h1]
        intro he
        simp only [List.mem_append] at he
        rcases he with he | he
        · exact hbl _ he rfl
        · simp [startup_catch] at he
      · rw [if_neg h1, if_neg hp2, hns]
        simp only [List.isEmpty_nil, Bool.not_true, Bool.false_and, Bool.false_eq_true,
          if_false]
        have hal : ∀ e ∈ (run_steps throws (startup_steps_after_parse cache_plugin_started
            (parse_bind_address_value bind_address [] []).2.1 []
            (listen_backlog max_connections))).1,
            e ≠ Startup_event.log_error
              Log_code.ER_NETWORK_NAMESPACE_NOT_ALLOWED_FOR_WILDCARD_ADDRESS := by
          intro e he hEq
          have := run_steps_mem throws _ e he
          subst hEq
          cases cache_plugin_started <;> simp [startup_steps_after_parse] at this
        split_ifs with h2
        · intro he
          simp only [List.mem_append] at he
          rcases he with (he | he) | he
          · exact hbl _ he rfl
          · exact hal _ he rfl
          · simp only [startup_catch] at he
            split_ifs at he <;> simp at he
        · intro he
          simp only [List.mem_append] at he
          rcases he with he | he
          · exact hbl _ he rfl
          · exact hal _ he rfl
    · intro hth
      have hfun : throws = fun _ => false := funext hth
      subst hfun
      unfold plugin_main
      simp only [run_steps_no_throw, Bool.false_eq_true, if_false, if_neg hp2, hns,
        List.isEmpty_nil, Bool.not_true, Bool.false_and]
      refine ⟨trivial, ?_⟩
      simp [startup_steps_after_parse]

/-- C10, instances with `*` as the only wildcard host: `"/ns1"` does not parse and
`"*/ns1"` joins a namespace to the wildcard, both return 1; `"*"` alone starts. -/
theorem plugin_main_config_errors_witness :
    (plugin_main (fun s => s == ['*']) (fun _ => false) false 100 "/ns1".toList).1 = 1 ∧
    (plugin_main (fun s => s == ['*']) (fun _ => false) false 100 "*/ns1".toList).1 = 1 ∧
    (plugin_main (fun s => s == ['*']) (fun _ => false) false 100 "*".toList).1 = 0 :=
  ⟨((plugin_main_config_errors (fun s => s == ['*']) (fun _ => false) false 100
        "/ns1".toList).1 (Or.inl (by decide))).1,
    ((plugin_main_config_errors (fun s => s == ['*']) (fun _ => false) false 100
        "*/ns1".toList).1 (Or.inr ⟨by decide, by decide, by decide⟩)).1,
    (((plugin_main_config_errors (fun s => s == ['*']) (fun _ => false) false 100
        "*".toList).2 (by decide) (by decide)).2 (fun _ => rfl)).1⟩


/-! ## Backlog, TLS, live configuration, client ids: proofs -/

/-- C11. For every 32-bit unsigned `max_connections` the listen backlog of
`plugin_main` is `min(50 + max_connections / 5, 900)`, the sum does not wrap in
32-bit unsigned arithmetic, the backlog lies between 50 and 900, and it is the value
handed to the acceptors; `max_connections = 100` gives 70 and `5000` gives 900. -/
theorem listen_backlog_formula (max_connections : Nat)
    (h : max_connections < 4294967296) :
    listen_backlog max_connections = min (50 + max_connections / 5) 900 ∧
    50 + max_connections / 5 < 4294967296 ∧
    to_uint32 (50 + max_connections / 5) = 50 + max_connections / 5 ∧
    50 ≤ listen_backlog max_connections ∧ listen_backlog max_connections ≤ 900 ∧
    (∀ check_address_is_wildcard throws cache_plugin_started bind_address address_value
        network_namespace backlog,
      Startup_event.allocate_acceptors address_value network_namespace backlog ∈
        (plugin_main check_address_is_wildcard throws cache_plugin_started max_connections
          bind_address).2 →
      backlog = listen_backlog max_connections) ∧
    listen_backlog 100 = 70 ∧ listen_backlog 5000 = 900 := by
  have hsum : 50 + max_connections / 5 < 4294967296 := by omega
  have hred : to_uint32 (50 + max_connections / 5) = 50 + max_connections / 5 := by
    unfold to_uint32; omega
  have hval : listen_backlog max_connections = min (50 + max_connections / 5) 900 := by
    unfold listen_backlog
    simp only [hred]
    split_ifs with hgt <;> omega
  refine ⟨hval, hsum, hred, by omega, by omega, ?_, by decide, by decide⟩
  intro w throws cache addr a n b hmem
  have hbefore : ∀ e ∈ (run_steps throws startup_steps_before_parse).1,
      e ≠ Startup_event.allocate_acceptors a n b := by
    intro e he hEq
    have := run_steps_mem throws _ e he
    subst hEq
    simp [startup_steps_before_parse] at this
  have hafter : ∀ x y, Startup_event.allocate_acceptors a n b ∈
      (run_steps throws (startup_steps_after_parse cache x y
        (listen_backlog max_connections))).1 → b = listen_backlog max_connections := by
    intro x y he
    have := run_steps_mem throws _ _ he
    cases cache <;> simp [startup_steps_after_parse] at this <;> exact this.2.2
  have hcatch : ∀ i, Startup_event.allocate_acceptors a n b ∉ startup_catch i := by
    intro i; cases i <;> simp [startup_catch]
  unfold plugin_main at hmem
  simp only at hmem
  split_ifs at hmem with h1 h2 h3 h4
  · simp only [List.mem_append] at hmem
    rcases hmem with hm | hm
    · exact absurd rfl (hbefore _ hm)
    · exact absurd hm (hcatch _)
  · simp only [List.mem_append, List.mem_singleton] at hmem
    rcases hmem with hm | hm
    · exact absurd rfl (hbefore _ hm)
    · cases hm
  · simp only [List.mem_append, List.mem_singleton] at hmem
    rcases hmem with hm | hm
    · exact absurd rfl (hbefore _ hm)
    · cases hm
  · simp only [List.mem_append] at hmem
    rcases hmem with (hm | hm) | hm
    · exact absurd rfl (hbefore _ hm)
    · exact hafter _ _ hm
    · exact absurd hm (hcatch _)
  · simp only [List.mem_append] at hmem
    rcases hmem with hm | hm
    · exact absurd rfl (hbefore _ hm)
    · exact hafter _ _ hm

/-- C11, instances: `max_connections = 100` and the largest 32-bit value. -/
theorem listen_backlog_formula_witness :
    listen_backlog 100 = min (50 + 100 / 5) 900 ∧
    listen_backlog 4294967295 = min (50 + 4294967295 / 5) 900 :=
  ⟨(listen_backlog_formula 100 (by decide)).1,
    (listen_backlog_formula 4294967295 (by decide)).1⟩

/-- C12. Whatever the server-wide configuration, the server's TLS flag and the plugin
configuration are: `choose_ssl_config` returns the plugin configuration when that one
is configured; otherwise the server-wide configuration when TLS is enabled on the
server; otherwise the default-constructed, empty configuration. The code logged names
the source chosen. -/
theorem choose_ssl_config_precedence (is_configured : Ssl_config → Bool)
    (mysqld_have_ssl : Bool) (mysqld_ssl mysqlx_ssl : Ssl_config) :
    (is_configured mysqlx_ssl = true →
      choose_ssl_config is_configured mysqld_have_ssl mysqld_ssl mysqlx_ssl =
        (mysqlx_ssl, Ssl_log_code.ER_XPLUGIN_USING_SSL_CONF_FROM_MYSQLX)) ∧
    (is_configured mysqlx_ssl = false → mysqld_have_ssl = true →
      choose_ssl_config is_configured mysqld_have_ssl mysqld_ssl mysqlx_ssl =
        (mysqld_ssl, Ssl_log_code.ER_XPLUGIN_USING_SSL_CONF_FROM_SERVER)) ∧
    (is_configured mysqlx_ssl = false → mysqld_have_ssl = false →
      choose_ssl_config is_configured mysqld_have_ssl mysqld_ssl mysqlx_ssl =
        (Ssl_config.default, Ssl_log_code.ER_XPLUGIN_FAILED_TO_USE_SSL_CONF)) := by
  refine ⟨?_, ?_, ?_⟩
  · intro h; simp [choose_ssl_config, h]
  · intro h1 h2; simp [choose_ssl_config, h1, h2]
  · intro h1 h2; simp [choose_ssl_config, h1, h2]

/-- C12, instances, a configuration counting as configured when it has a key: plugin
and server both configured gives the plugin configuration; only the server
configured gives the server configuration; neither gives the empty configuration. -/
theorem choose_ssl_config_precedence_witness :
    choose_ssl_config (fun c => c.ssl_key.isSome) true
        ⟨some "server-key.pem".toList, none, none, none, none, none, none⟩
        ⟨some "plugin-key.pem".toList, none, none, none, none, none, none⟩ =
      (⟨some "plugin-key.pem".toList, none, none, none, none, none, none⟩,
        Ssl_log_code.ER_XPLUGIN_USING_SSL_CONF_FROM_MYSQLX) ∧
    choose_ssl_config (fun c => c.ssl_key.isSome) true
        ⟨some "server-key.pem".toList, none, none, none, none, none, none⟩
        Ssl_config.default =
      (⟨some "server-key.pem".toList, none, none, none, none, none, none⟩,
        Ssl_log_code.ER_XPLUGIN_USING_SSL_CONF_FROM_SERVER) ∧
    choose_ssl_config (fun c => c.ssl_key.isSome) false Ssl_config.default
        Ssl_config.default =
      (Ssl_config.default, Ssl_log_code.ER_XPLUGIN_FAILED_TO_USE_SSL_CONF) :=
  ⟨(choose_ssl_config_precedence _ true _ _).1 (by decide),
    (choose_ssl_config_precedence _ true _ _).2.1 (by decide) rfl,
    (choose_ssl_config_precedence _ false _ _).2.2 (by decide) rfl⟩

/-- C13, as amended. For every requested worker-pool minimum `r` held in the live
configuration and every 32-bit value `a` that `set_num_workers(r)` returns, after
`plugin_system_variables_changed` the minimum in the configuration is the smaller of
`r` and `a`: it is `a` when `a <= r`, and it stays `r` when `a > r`. The scheduler is
asked for `r` once. -/
theorem worker_floor_reconciled (set_num_workers : Nat → Nat)
    (v : Plugin_system_variables) (config : Protocol_global_config)
    (ha : set_num_workers v.min_worker_threads < 4294967296) :
    (plugin_system_variables_changed set_num_workers v config).1.min_worker_threads =
      min v.min_worker_threads (set_num_workers v.min_worker_threads) ∧
    (set_num_workers v.min_worker_threads ≤ v.min_worker_threads →
      (plugin_system_variables_changed set_num_workers v config).1.min_worker_threads =
        set_num_workers v.min_worker_threads) ∧
    (v.min_worker_threads < set_num_workers v.min_worker_threads →
      (plugin_system_variables_changed set_num_workers v config).1.min_worker_threads =
        v.min_worker_threads) ∧
    (plugin_system_variables_changed set_num_workers v config).2.2.filter
        (fun c => c matches Scheduler_call.set_num_workers _) =
      [Scheduler_call.set_num_workers v.min_worker_threads] := by
  have hred : to_uint32 (set_num_workers v.min_worker_threads) =
      set_num_workers v.min_worker_threads := by
    unfold to_uint32; omega
  have hmain : (plugin_system_variables_changed set_num_workers v config).1.min_worker_threads =
      min v.min_worker_threads (set_num_workers v.min_worker_threads) := by
    unfold plugin_system_variables_changed
    simp only [hred]
    split_ifs with h
    · simp only; omega
    · omega
  refine ⟨hmain, ?_, ?_, ?_⟩
  · intro h; rw [hmain]; omega
  · intro h; rw [hmain]; omega
  · simp [plugin_system_variables_changed]

/-- C13, instances: a request of 8 answered with 5 leaves 5 in the configuration; a
request of 1 answered with 2 leaves 1. -/
theorem worker_floor_reconciled_witness :
    (plugin_system_variables_changed (fun _ => 5) ⟨8, 60, 28800, 67108864, 30⟩
        ⟨0, 0, 0⟩).1.min_worker_threads = 5 ∧
    (plugin_system_variables_changed (fun _ => 2) ⟨1, 60, 28800, 67108864, 30⟩
        ⟨0, 0, 0⟩).1.min_worker_threads = 1 :=
  ⟨((worker_floor_reconciled (fun _ => 5) ⟨8, 60, 28800, 67108864, 30⟩ ⟨0, 0, 0⟩
      (by decide)).2.1 (by decide)),
    ((worker_floor_reconciled (fun _ => 2) ⟨1, 60, 28800, 67108864, 30⟩ ⟨0, 0, 0⟩
      (by decide)).2.2.1 (by decide))⟩

/-- C13 as stated fails when the scheduler returns more than was requested: with a
requested minimum of 1 and a scheduler that applies and returns its floor 2, the
configuration afterwards still holds 1, not 2. -/
theorem worker_floor_not_raised :
    (fun (n : Nat) => max n 2) 1 = 2 ∧
    (plugin_system_variables_changed (fun n => max n 2) ⟨1, 60, 28800, 67108864, 30⟩
        ⟨0, 0, 0⟩).1.min_worker_threads = 1 ∧
    (plugin_system_variables_changed (fun n => max n 2) ⟨1, 60, 28800, 67108864, 30⟩
        ⟨0, 0, 0⟩).1.min_worker_threads ≠ (fun (n : Nat) => max n 2) 1 := by
  decide

theorem to_uint64_of_lt (n : Nat) (h : n < 18446744073709551616) : to_uint64 n = n := by
  unfold to_uint64; omega

/-- Creating `n` clients in a row from the counter value `c` gives the ids
`c + 1, ..., c + n`, as long as the counter does not wrap. -/
theorem run_id_ops_creates (st : Id_state) (n : Nat)
    (h : st.server.m_client_id + n < 18446744073709551616) :
    (run_id_ops st (List.replicate n Id_op.create_client)).1 =
      List.range' (st.server.m_client_id + 1) n := by
  induction n generalizing st with
  | zero => rfl
  | succ n ih =>
    have e : to_uint64 (st.server.m_client_id + 1) = st.server.m_client_id + 1 :=
      to_uint64_of_lt _ (by omega)
    simp only [List.replicate_succ, run_id_ops, create_client, e, List.range'_succ]
    congr 1
    have := ih { st with server := { st.server with m_client_id := st.server.m_client_id + 1 } }
      (by simp only; omega)
    simpa using this

theorem run_id_ops_append (st : Id_state) (xs ys : List Id_op) :
    run_id_ops st (xs ++ ys) =
      ((run_id_ops st xs).1 ++ (run_id_ops (run_id_ops st xs).2 ys).1,
        (run_id_ops (run_id_ops st xs).2 ys).2) := by
  induction xs generalizing st with
  | nil => simp [run_id_ops]
  | cons x xs ih =>
    rw [List.cons_append]
    cases x with
    | create_client => simp only [run_id_ops]; rw [ih]; rfl
    | reset inner_reset => simp only [run_id_ops]; rw [ih]
    | reset_globals => simp only [run_id_ops]; rw [ih]

/-- Without a reset that takes effect, the ids continue from the counter and the
counter ends that many higher, as long as it does not wrap. -/
theorem run_id_ops_between_resets (st : Id_state) (ops : List Id_op)
    (hops : ∀ op ∈ ops, op.resets_counter = false)
    (hn : st.server.m_client_id + ops.count Id_op.create_client < 18446744073709551616) :
    (run_id_ops st ops).1 =
        List.range' (st.server.m_client_id + 1) (ops.count Id_op.create_client) ∧
      (run_id_ops st ops).2.server.m_client_id =
        st.server.m_client_id + ops.count Id_op.create_client := by
  induction ops generalizing st with
  | nil => exact ⟨rfl, rfl⟩
  | cons op ops ih =>
    have hrest : ∀ o ∈ ops, o.resets_counter = false :=
      fun o ho => hops o (List.mem_cons_of_mem _ ho)
    cases op with
    | create_client =>
      have hc : (Id_op.create_client :: ops).count Id_op.create_client =
          ops.count Id_op.create_client + 1 := by simp
      rw [hc] at hn ⊢
      have e : to_uint64 (st.server.m_client_id + 1) = st.server.m_client_id + 1 :=
        to_uint64_of_lt _ (by omega)
      obtain ⟨h1, h2⟩ :=
        ih { st with server := { st.server with m_client_id := st.server.m_client_id + 1 } }
          hrest (by simp only; omega)
      simp only [run_id_ops, create_client, e, List.range'_succ]
      refine ⟨?_, ?_⟩
      · rw [h1]
      · rw [h2]; simp only; omega
    | reset inner_reset =>
      have hi : inner_reset = false := by
        have := hops (Id_op.reset inner_reset) (List.mem_cons_self _ _)
        cases inner_reset
        · rfl
        · exact absurd this (by decide)
      subst hi
      have hc : (Id_op.reset false :: ops).count Id_op.create_client =
          ops.count Id_op.create_client := by simp
      rw [hc] at hn ⊢
      simpa [run_id_ops, Server.reset] using ih st hrest hn
    | reset_globals =>
      exact absurd (hops Id_op.reset_globals (List.mem_cons_self _ _)) (by decide)

/-- A reset that takes effect leaves the counter at 0. -/
theorem run_id_ops_reset (st : Id_state) (e : Id_op) (he : e.resets_counter = true) :
    (run_id_ops st [e]).1 = [] ∧ (run_id_ops st [e]).2.server.m_client_id = 0 := by
  cases e with
  | create_client => exact absurd he (by decide)
  | reset inner_reset =>
    cases inner_reset
    · exact absurd he (by decide)
    · exact ⟨rfl, rfl⟩
  | reset_globals => exact ⟨rfl, rfl⟩

/-- C14, as amended. On one `Server` instance, for every sequence of `create_client`
calls with `Server::reset` calls whose inner reset fails interleaved anywhere, and
fewer than `2^64` ids in all: each client created receives the id after the one
before it, so every id is strictly greater than the counter at the start and than
every id created before it in the sequence. The counter is 0 after the construction
and after every reset that takes effect (`reset_globals`, or `Server::reset` whose
inner reset succeeds), so that after any history followed by such a reset, and on a
new server, the ids of such a sequence are `1, 2, 3, ...`. -/
theorem client_ids_increase_between_resets (st : Id_state) (ops : List Id_op)
    (hops : ∀ op ∈ ops, op.resets_counter = false)
    (hn : st.server.m_client_id + ops.count Id_op.create_client < 18446744073709551616) :
    (run_id_ops st ops).1 =
      List.range' (st.server.m_client_id + 1) (ops.count Id_op.create_client) ∧
    List.Pairwise (· < ·) (run_id_ops st ops).1 ∧
    (run_id_ops st ops).1.Nodup ∧
    (∀ id ∈ (run_id_ops st ops).1, st.server.m_client_id < id) ∧
    (run_id_ops st ops).2.server.m_client_id =
      st.server.m_client_id + ops.count Id_op.create_client ∧
    (run_id_ops Id_state.init ops).1 = List.range' 1 (ops.count Id_op.create_client) ∧
    (∀ (st0 : Id_state) (history : List Id_op) (e : Id_op), e.resets_counter = true →
      (run_id_ops st0 (history ++ e :: ops)).1 =
        (run_id_ops st0 history).1 ++ List.range' 1 (ops.count Id_op.create_client)) ∧
    (∀ g w s, (reset_globals g w s).2.2.m_client_id = 0) ∧
    (∀ g w s, (Server.reset true g w s).2.2.2.m_client_id = 0) ∧
    (∀ g w s, (Server.reset false g w s).2.2.2.m_client_id = s.m_client_id) := by
  have hcount : ops.count Id_op.create_client < 18446744073709551616 := by omega
  obtain ⟨h1, h2⟩ := run_id_ops_between_resets st ops hops hn
  refine ⟨h1, ?_, ?_, ?_, h2, ?_, ?_, fun _ _ _ => rfl, fun _ _ _ => rfl, fun _ _ _ => rfl⟩
  · rw [h1]; exact List.pairwise_lt_range' _ _
  · rw [h1]; exact List.nodup_range' _ _
  · intro id hid
    rw [h1, List.mem_range'_1] at hid
    omega
  · exact (run_id_ops_between_resets Id_state.init ops hops
      (by show 0 + _ < _; omega)).1
  · intro st0 history e he
    have hsplit : history ++ e :: ops = history ++ ([e] ++ ops) := by simp
    obtain ⟨r1, r2⟩ := run_id_ops_reset (run_id_ops st0 history).2 e he
    rw [hsplit, run_id_ops_append, run_id_ops_append]
    simp only [r1, List.nil_append]
    have := (run_id_ops_between_resets (run_id_ops (run_id_ops st0 history).2 [e]).2 ops hops
      (by rw [r2]; omega)).1
    rw [this, r2]

/-- C14, instances: on a new server, three clients created with a failed
`Server::reset` between them get the ids 1, 2, 3; after a history of two clients and a
`reset_globals`, the same sequence gives 1, 2, 3 again. -/
theorem client_ids_increase_between_resets_witness :
    (run_id_ops Id_state.init
        [.create_client, .reset false, .create_client, .create_client]).1 =
      List.range' 1 3 ∧
    (run_id_ops Id_state.init
        ([.create_client, .create_client] ++ Id_op.reset_globals ::
          [.create_client, .reset false, .create_client, .create_client])).1 =
      [1, 2] ++ List.range' 1 3 :=
  ⟨(client_ids_increase_between_resets Id_state.init
      [.create_client, .reset false, .create_client, .create_client]
      (by decide) (by decide)).2.2.2.2.2.1,
    (client_ids_increase_between_resets Id_state.init
      [.create_client, .reset false, .create_client, .create_client]
      (by decide) (by decide)).2.2.2.2.2.2.1 Id_state.init [.create_client, .create_client]
      Id_op.reset_globals rfl⟩

/-- C14 as stated fails across a reset: a client is created, the globals are reset (by
`reset_globals`, or by `Server::reset` with a successful inner reset), and the next
client created gets the id 1 again. -/
theorem client_id_reused_after_reset :
    (run_id_ops Id_state.init [.create_client, .reset_globals, .create_client]).1 = [1, 1] ∧
    (run_id_ops Id_state.init [.create_client, .reset true, .create_client]).1 = [1, 1] := by
  decide

/-! ## Shutdown poll and lock order: proofs -/

/-- C15. In every state in which the exit flag is set or the host process is
terminating, one call of `on_verify_server_state` returns false after calling `stop`
exactly once, with the called-from-timer flag true, as its last step; it does so
whether the session scheduler is not running (then no task is allocated or posted),
the task was enqueued, or enqueueing failed (then the task is freed); it never runs
`close_all_clients` itself. In every state where neither condition holds it returns
true and does nothing. -/
theorem on_verify_server_state_progress (mysqld_is_terminating exiting
    wscheduler_is_running post_result : Bool) :
    ((mysqld_is_terminating = true ∨ exiting = true) →
      (on_verify_server_state mysqld_is_terminating exiting wscheduler_is_running
          post_result).1 = false ∧
      (on_verify_server_state mysqld_is_terminating exiting wscheduler_is_running
          post_result).2.filter Verify_event.is_stop = [Verify_event.stop true] ∧
      (on_verify_server_state mysqld_is_terminating exiting wscheduler_is_running
          post_result).2.getLast? = some (Verify_event.stop true) ∧
      (wscheduler_is_running = false →
        (on_verify_server_state mysqld_is_terminating exiting wscheduler_is_running
            post_result).2.filter Verify_event.is_task = []) ∧
      (wscheduler_is_running = true →
        (on_verify_server_state mysqld_is_terminating exiting wscheduler_is_running
            post_result).2.filter Verify_event.is_task =
          [Verify_event.allocate_task, Verify_event.post_task] ∧
        (Verify_event.free_task ∈
            (on_verify_server_state mysqld_is_terminating exiting wscheduler_is_running
              post_result).2 ↔ post_result = false)) ∧
      Verify_event.close_all_clients ∉
        (on_verify_server_state mysqld_is_terminating exiting wscheduler_is_running
          post_result).2) ∧
    ((mysqld_is_terminating = false ∧ exiting = false) →
      on_verify_server_state mysqld_is_terminating exiting wscheduler_is_running
        post_result = (true, [])) := by
  cases mysqld_is_terminating <;> cases exiting <;> cases wscheduler_is_running <;>
    cases post_result <;> decide

/-- C15, instances: the exit flag is set and the scheduler refuses the task; nothing
asks for an exit. -/
theorem on_verify_server_state_progress_witness :
    (on_verify_server_state false true true false).1 = false ∧
    (on_verify_server_state false true true false).2 =
      [.allocate_task, .post_task,
        .log_debug "Unable to schedule closing all clients ", .free_task, .stop true] ∧
    on_verify_server_state false false true true = (true, []) :=
  ⟨((on_verify_server_state_progress false true true false).1 (Or.inr rfl)).1, by decide,
    (on_verify_server_state_progress false false true true).2 ⟨rfl, rfl⟩⟩

/-- C18. The timer `start_verify_server_state_timer` registers has a period of 1000
(milliseconds); its callback does what one call of `on_verify_server_state` does and
returns true whatever that call returned, also on the firing on which the call
returned false after triggering the shutdown: the callback never cancels the timer. -/
theorem verify_timer_keeps_armed (mysqld_is_terminating exiting wscheduler_is_running
    post_result : Bool) :
    start_verify_server_state_timer.1 = 1000 ∧
    (start_verify_server_state_timer.2 mysqld_is_terminating exiting wscheduler_is_running
        post_result).1 = true ∧
    (start_verify_server_state_timer.2 mysqld_is_terminating exiting wscheduler_is_running
        post_result).2 =
      (on_verify_server_state mysqld_is_terminating exiting wscheduler_is_running
        post_result).2 ∧
    (start_verify_server_state_timer.2 true exiting wscheduler_is_running post_result).1 =
      true ∧
    (on_verify_server_state true exiting wscheduler_is_running post_result).1 = false := by
  refine ⟨rfl, rfl, rfl, rfl, ?_⟩
  simp [on_verify_server_state]

/-- Every trace of `kill_client` is one of six shapes. -/
theorem kill_client_traces (clients : List Client) (env : Kill_env)
    (client_id requester_id : Nat) :
    (kill_client clients env client_id requester_id).2 =
      [.lock_exit_mutex, .unlock_exit_mutex] ∨
    (∃ c, (kill_client clients env client_id requester_id).2 =
      [.lock_exit_mutex, .unlock_exit_mutex, .kill c]) ∨
    (∃ c, (kill_client clients env client_id requester_id).2 =
      [.lock_exit_mutex, .lock_session_exit_mutex c, .unlock_session_exit_mutex c,
        .unlock_exit_mutex]) ∨
    (∃ c m, (kill_client clients env client_id requester_id).2 =
      [.lock_exit_mutex, .lock_session_exit_mutex c, .unlock_session_exit_mutex c,
        .execute_kill_sql_session m, .unlock_exit_mutex]) ∨
    (∃ c m, (kill_client clients env client_id requester_id).2 =
      [.lock_exit_mutex, .lock_session_exit_mutex c, .unlock_session_exit_mutex c,
        .execute_kill_sql_session m, .lock_session_exit_mutex c,
        .unlock_session_exit_mutex c, .kill c, .unlock_exit_mutex]) ∨
    (∃ c m, (kill_client clients env client_id requester_id).2 =
      [.lock_exit_mutex, .lock_session_exit_mutex c, .unlock_session_exit_mutex c,
        .execute_kill_sql_session m, .lock_session_exit_mutex c,
        .unlock_session_exit_mutex c, .unlock_exit_mutex]) := by
  cases hc : Client_list.find clients client_id with
  | none => left; simp [kill_client, hc]
  | some c =>
    by_cases hs : c.state = Client_state.k_closed
    · left; simp [kill_client, hc, hs]
    · by_cases hne : client_id = requester_id
      · right; left; subst hne; exact ⟨c.client_id, by simp [kill_client, hc, hs]⟩
      · cases hsess : c.session with
        | none =>
          right; right; left
          rw [kill_client_no_session clients env client_id requester_id c hc hs hne hsess]
          exact ⟨_, rfl⟩
        | some s =>
          cases herr : (env.execute_kill_sql_session s.mysql_session_id).is_error with
          | true =>
            right; right; right; left
            rw [kill_client_request_error clients env client_id requester_id c hc hs hne s
              hsess herr]
            exact ⟨_, _, rfl⟩
          | false =>
            by_cases hre : ∃ s2, env.session_at_recheck = some s2 ∧ s2.is_killed = true
            · obtain ⟨s2, h1, h2⟩ := hre
              right; right; right; right; left
              rw [kill_client_killed clients env client_id requester_id c hc hs hne s s2 hsess
                herr h1 h2]
              exact ⟨_, _, rfl⟩
            · have hre2 : ∀ s2, env.session_at_recheck = some s2 → s2.is_killed = false := by
                intro s2 h
                cases hk : s2.is_killed with
                | false => rfl
                | true => exact absurd ⟨s2, h, hk⟩ hre
              right; right; right; right; right
              rw [kill_client_not_killed clients env client_id requester_id c hc hs hne s hsess
                herr hre2]
              exact ⟨_, _, rfl⟩

/-- C16. On every execution path through `kill_client`, seen as a trace of acquire and
release events: the first event is the acquisition of the exit mutex; a session-exit
mutex is acquired only after that, while the exit mutex is held; the exit mutex is
never acquired while a session-exit mutex is held; and every mutex acquired is
released before the return. -/
theorem kill_client_lock_order (clients : List Client) (env : Kill_env)
    (client_id requester_id : Nat) :
    (kill_client clients env client_id requester_id).2.head? =
      some Kill_event.lock_exit_mutex ∧
    lock_order_ok false 0 (kill_client clients env client_id requester_id).2 = true ∧
    (kill_client clients env client_id requester_id).2.count Kill_event.lock_exit_mutex = 1 ∧
    locks_left_held (kill_client clients env client_id requester_id).2 = 0 := by
  rcases kill_client_traces clients env client_id requester_id with
    h | ⟨c, h⟩ | ⟨c, h⟩ | ⟨c, m, h⟩ | ⟨c, m, h⟩ | ⟨c, m, h⟩ <;>
  · rw [h]
    refine ⟨rfl, ?_, ?_, ?_⟩
    · simp [lock_order_ok]
    · simp [List.count_cons]
    · simp [locks_left_held]

/-! ## Grants of the session account: proofs -/

/-- What the end of the loop body adds to the flags, in terms of the privilege list. -/
theorem grants_privileges_eq (st : Grants_state) (p : List Char) (b : Bool) :
    grants_privileges st p b =
      ⟨st.num_of_grants, st.has_no_privileges,
        st.has_select_on_mysql_user ||
          (names_privilege p "ALL".toList false || names_privilege p "SELECT".toList true),
        st.has_super ||
          (names_privilege p "SUPER".toList true ||
            (b && names_privilege p "ALL".toList false))⟩ := by
  have e1 : (' ' :: "ALL".toList ++ [' ']) = " ALL ".toList := rfl
  have e2 : (' ' :: "SELECT".toList ++ [' ']) = " SELECT ".toList := rfl
  have e3 : (' ' :: "SELECT".toList ++ [',']) = " SELECT,".toList := rfl
  have e4 : (' ' :: "SUPER".toList ++ [' ']) = " SUPER ".toList := rfl
  have e5 : (' ' :: "SUPER".toList ++ [',']) = " SUPER,".toList := rfl
  unfold grants_privileges names_privilege
  rw [e1, e2, e3, e4, e5]
  generalize (string_find p " ALL ".toList).isSome = x1
  generalize (string_find p " SELECT ".toList).isSome = x2
  generalize (string_find p " SELECT,".toList).isSome = x3
  generalize (string_find p " SUPER ".toList).isSome = x4
  generalize (string_find p " SUPER,".toList).isSome = x5
  obtain ⟨n, f1, f2, f3⟩ := st
  cases x1 <;> cases x2 <;> cases x3 <;> cases x4 <;> cases x5 <;> cases b <;>
    cases f2 <;> cases f3 <;> rfl

/-- What one pass through the loop body does to the local variables. -/
theorem grants_row_eq (usage_row : List Char) (st : Grants_state) (row : List Char) :
    grants_row usage_row st row =
      ⟨to_int32 (st.num_of_grants + 1),
        st.has_no_privileges || decide (row = usage_row),
        st.has_select_on_mysql_user || grants_select row,
        st.has_super || grants_super row⟩ := by
  have hno : ∀ (n : Int) (f1 f2 f3 : Bool),
      (if row = usage_row then
          ({ num_of_grants := n, has_no_privileges := true,
              has_select_on_mysql_user := f2, has_super := f3 } : Grants_state)
        else ⟨n, f1, f2, f3⟩) = ⟨n, f1 || decide (row = usage_row), f2, f3⟩ := by
    intro n f1 f2 f3
    by_cases h : row = usage_row <;> simp [h]
  obtain ⟨n, f1, f2, f3⟩ := st
  unfold grants_row grants_select grants_super privilege_list
  simp only [hno]
  cases h1 : string_find row "ON *.*".toList with
  | some p => simp only [grants_privileges_eq]
  | none =>
    cases h2 : string_find row "ON `mysql`.*".toList with
    | some p => simp only [grants_privileges_eq]
    | none =>
      cases h3 : string_find row "ON `mysql`.`user`".toList with
      | some p => simp only [grants_privileges_eq]
      | none => simp

/-- The local variables after the loop went through the rows `l`. -/
theorem grants_loop_eq (usage_row : List Char) (l : List (List Char)) (st : Grants_state) :
    l.foldl (grants_row usage_row) st =
      ⟨(if l = [] then st.num_of_grants else to_int32 (st.num_of_grants + l.length)),
        st.has_no_privileges || decide (usage_row ∈ l),
        st.has_select_on_mysql_user || l.any grants_select,
        st.has_super || l.any grants_super⟩ := by
  induction l generalizing st with
  | nil => simp
  | cons r rs ih =>
    rw [List.foldl_cons, ih, grants_row_eq]
    simp only [List.length_cons, List.any_cons, Bool.or_assoc, List.mem_cons, reduceCtorEq,
      if_false]
    congr 1
    · split_ifs with hrs
      · subst hrs; simp
      · unfold to_int32; push_cast; omega
    · have hc : (usage_row = r) = (r = usage_row) := propext eq_comm
      simp only [hc, Bool.decide_or]


/-- The three-way decision at the end of `verify_mysqlx_user_grants`, read off the
local variables. -/
theorem grants_decision (n : Nat) (u a b : Bool) :
    (grants_verdict ⟨(n : Int), u, a, b⟩ = Except.ok () ↔ (a = true ∧ b = true)) ∧
    (grants_verdict ⟨(n : Int), u, a, b⟩ =
        Except.error Grants_error.ER_X_MYSQLX_ACCOUNT_MISSING_PERMISSIONS ↔
      (¬ (a = true ∧ b = true) ∧ u = true ∧ (n = 1 ∨ (n = 2 ∧ a = true)))) ∧
    (grants_verdict ⟨(n : Int), u, a, b⟩ =
        Except.error Grants_error.ER_X_BAD_CONFIGURATION ↔
      (¬ (a = true ∧ b = true) ∧ ¬ (u = true ∧ (n = 1 ∨ (n = 2 ∧ a = true))))) := by
  have h1 : (((n : Int) == 1) = true) ↔ n = 1 := by
    rw [beq_iff_eq]; omega
  have h2 : (((n : Int) == 2) = true) ↔ n = 2 := by
    rw [beq_iff_eq]; omega
  unfold grants_verdict
  by_cases hn1 : n = 1
  · subst hn1
    cases u <;> cases a <;> cases b <;> simp
  · by_cases hn2 : n = 2
    · subst hn2
      cases u <;> cases a <;> cases b <;> simp
    · have e1 : ((n : Int) == 1) = false := by
        rw [← Bool.not_eq_true, h1]; exact hn1
      have e2 : ((n : Int) == 2) = false := by
        rw [← Bool.not_eq_true, h2]; exact hn2
      simp only [e1, e2]
      cases u <;> cases a <;> cases b <;> simp [hn1, hn2]

/-- C17. For a result of fewer than `2^31` rows, `verify_mysqlx_user_grants` returns
normally exactly when some row grants `SELECT` or `ALL` and some row grants `SUPER`
(or `ALL` on every schema), the privilege list being the text before `ON *.*`,
``ON `mysql`.*`` or ``ON `mysql`.`user` ``; otherwise it throws
`ER_X_MYSQLX_ACCOUNT_MISSING_PERMISSIONS` exactly when the bare `GRANT USAGE` row of
the account is present and either it is the only row or there are exactly two rows
and one grants `SELECT` or `ALL`; in every remaining case it throws
`ER_X_BAD_CONFIGURATION`. -/
theorem verify_mysqlx_user_grants_classes (usage_row first : List Char)
    (rest : List (List Char)) (hlen : (first :: rest).length < 2147483648) :
    (verify_mysqlx_user_grants usage_row first rest = Except.ok () ↔
      ((∃ r ∈ first :: rest, grants_select r = true) ∧
        (∃ r ∈ first :: rest, grants_super r = true))) ∧
    (verify_mysqlx_user_grants usage_row first rest =
        Except.error Grants_error.ER_X_MYSQLX_ACCOUNT_MISSING_PERMISSIONS ↔
      (¬ ((∃ r ∈ first :: rest, grants_select r = true) ∧
          (∃ r ∈ first :: rest, grants_super r = true)) ∧
        usage_row ∈ first :: rest ∧
        ((first :: rest).length = 1 ∨
          ((first :: rest).length = 2 ∧ ∃ r ∈ first :: rest, grants_select r = true)))) ∧
    (verify_mysqlx_user_grants usage_row first rest =
        Except.error Grants_error.ER_X_BAD_CONFIGURATION ↔
      (¬ ((∃ r ∈ first :: rest, grants_select r = true) ∧
          (∃ r ∈ first :: rest, grants_super r = true)) ∧
        ¬ (usage_row ∈ first :: rest ∧
          ((first :: rest).length = 1 ∨
            ((first :: rest).length = 2 ∧
              ∃ r ∈ first :: rest, grants_select r = true))))) := by
  have hnum : to_int32 ((0 : Int) + ((first :: rest).length : Nat)) =
      (((first :: rest).length : Nat) : Int) := by
    unfold to_int32; omega
  have hsel : (first :: rest).any grants_select = true ↔
      ∃ r ∈ first :: rest, grants_select r = true := List.any_eq_true
  have hsup : (first :: rest).any grants_super = true ↔
      ∃ r ∈ first :: rest, grants_super r = true := List.any_eq_true
  have hmem : decide (usage_row ∈ first :: rest) = true ↔ usage_row ∈ first :: rest :=
    decide_eq_true_iff
  have key := grants_decision (first :: rest).length (decide (usage_row ∈ first :: rest))
    ((first :: rest).any grants_select) ((first :: rest).any grants_super)
  rw [hsel, hsup, hmem] at key
  have hv : verify_mysqlx_user_grants usage_row first rest =
      grants_verdict ⟨((first :: rest).length : Nat), decide (usage_row ∈ first :: rest),
        (first :: rest).any grants_select, (first :: rest).any grants_super⟩ := by
    unfold verify_mysqlx_user_grants
    rw [grants_loop_eq, if_neg (List.cons_ne_nil _ _), hnum]
    rfl
  rw [hv]
  exact key

/-- The model of `find` answers whether the needle occurs in the string. -/
theorem string_find_isSome_iff (hay needle : List Char) :
    (string_find hay needle).isSome = true ↔ needle <:+: hay := by
  induction hay with
  | nil =>
    unfold string_find
    by_cases h : needle.isPrefixOf [] = true
    · rw [if_pos h]
      have := List.isPrefixOf_iff_prefix.mp h
      simpa using this
    · rw [if_neg h]
      have hne : needle ≠ [] := by
        intro e; subst e; exact h rfl
      simpa using hne
  | cons c cs ih =>
    unfold string_find
    rw [List.infix_cons_iff]
    by_cases h : needle.isPrefixOf (c :: cs) = true
    · rw [if_pos h]
      simpa using Or.inl (List.isPrefixOf_iff_prefix.mp h)
    · rw [if_neg h, Option.isSome_map', ih]
      have hn : ¬ needle <+: c :: cs := fun hp => h (List.isPrefixOf_iff_prefix.mpr hp)
      simp [hn]

/-- C17, instances for the account `mysql.session`@`localhost`: `SUPER` on every schema
with `SELECT` on `mysql.user` is accepted; the bare `USAGE` row alone, and that row
with `SELECT` on `mysql.user`, are missing permissions. -/
theorem verify_mysqlx_user_grants_classes_witness :
    verify_mysqlx_user_grants (usage_grant "mysql.session".toList "localhost".toList)
        "GRANT SUPER ON *.* TO `mysql.session`@`localhost`".toList
        ["GRANT SELECT ON `mysql`.`user` TO `mysql.session`@`localhost`".toList] =
      Except.ok () ∧
    verify_mysqlx_user_grants (usage_grant "mysql.session".toList "localhost".toList)
        "GRANT USAGE ON *.* TO `mysql.session`@`localhost`".toList [] =
      Except.error Grants_error.ER_X_MYSQLX_ACCOUNT_MISSING_PERMISSIONS ∧
    verify_mysqlx_user_grants (usage_grant "mysql.session".toList "localhost".toList)
        "GRANT USAGE ON *.* TO `mysql.session`@`localhost`".toList
        ["GRANT SELECT ON `mysql`.`user` TO `mysql.session`@`localhost`".toList] =
      Except.error Grants_error.ER_X_MYSQLX_ACCOUNT_MISSING_PERMISSIONS ∧
    verify_mysqlx_user_grants (usage_grant "mysql.session".toList "localhost".toList)
        "GRANT INSERT ON `test`.* TO `mysql.session`@`localhost`".toList [] =
      Except.error Grants_error.ER_X_BAD_CONFIGURATION :=
  ⟨(verify_mysqlx_user_grants_classes _ _ _ (by decide)).1.mpr
      ⟨⟨_, List.mem_cons_of_mem _ (List.mem_singleton.mpr rfl), by decide⟩,
        ⟨_, List.mem_cons_self _ _, by decide⟩⟩,
    (verify_mysqlx_user_grants_classes _ _ _ (by decide)).2.1.mpr
      ⟨by decide, by decide, Or.inl rfl⟩,
    (verify_mysqlx_user_grants_classes _ _ _ (by decide)).2.1.mpr
      ⟨by decide, by decide,
        Or.inr ⟨rfl, _, List.mem_cons_of_mem _ (List.mem_singleton.mpr rfl), by decide⟩⟩,
    (verify_mysqlx_user_grants_classes _ _ _ (by decide)).2.2.mpr
      ⟨by decide, by decide⟩⟩

end xpl

namespace im

/-! ## Snapshot clause: proofs -/

/-- C19. A default-constructed `Snapshot_info_t`, and any object after `reset()`, has
`valid()` false and `get_type()` equal to `SNAPSHOT_NONE`; on such an object the
assertion of each setter holds, and for every value `v`, `set_timestamp(v)`,
`set_scn(v)` or `set_gcn(v)` makes `valid()` true, makes `get_type()` return
`AS_OF_TIMESTAMP`, `AS_OF_SCN` or `AS_OF_GCN`, and makes the matching getter pass its
own assertion and return `v`. -/
theorem snapshot_info_set_get (fresh : Snapshot_info_t) (v : Nat)
    (hfresh : (∃ indeterminate, fresh = Snapshot_info_t.new indeterminate) ∨
      (∃ s : Snapshot_info_t, fresh = s.reset)) :
    fresh.valid = false ∧ fresh.get_type = Snapshot_type.SNAPSHOT_NONE ∧
    (∃ s, fresh.set_timestamp v = some s ∧ s.valid = true ∧
      s.get_type = Snapshot_type.AS_OF_TIMESTAMP ∧ s.get_asof_timestamp = some v) ∧
    (∃ s, fresh.set_scn v = some s ∧ s.valid = true ∧
      s.get_type = Snapshot_type.AS_OF_SCN ∧ s.get_asof_scn = some v) ∧
    (∃ s, fresh.set_gcn v = some s ∧ s.valid = true ∧
      s.get_type = Snapshot_type.AS_OF_GCN ∧ s.get_asof_gcn = some v) := by
  have ht : fresh.type = Snapshot_type.SNAPSHOT_NONE := by
    rcases hfresh with ⟨i, rfl⟩ | ⟨s, rfl⟩ <;> rfl
  refine ⟨?_, ht, ?_, ?_, ?_⟩
  · simp [Snapshot_info_t.valid, ht]
  · exact ⟨⟨.AS_OF_TIMESTAMP, v⟩, by simp [Snapshot_info_t.set_timestamp, ht], rfl, rfl,
      by simp [Snapshot_info_t.get_asof_timestamp]⟩
  · exact ⟨⟨.AS_OF_SCN, v⟩, by simp [Snapshot_info_t.set_scn, ht], rfl, rfl,
      by simp [Snapshot_info_t.get_asof_scn]⟩
  · exact ⟨⟨.AS_OF_GCN, v⟩, by simp [Snapshot_info_t.set_gcn, ht], rfl, rfl,
      by simp [Snapshot_info_t.get_asof_gcn]⟩

/-- C19, instances: the largest 64-bit value set as a timestamp on a new object, and
an SCN set on an object that held a GCN before `reset()`. -/
theorem snapshot_info_set_get_witness :
    ((Snapshot_info_t.new 7).set_timestamp 18446744073709551615).bind
        Snapshot_info_t.get_asof_timestamp = some 18446744073709551615 ∧
    ((Snapshot_info_t.reset ⟨.AS_OF_GCN, 5⟩).set_scn 42).bind
        Snapshot_info_t.get_asof_scn = some 42 := by
  obtain ⟨s, h1, -, -, h2⟩ :=
    (snapshot_info_set_get (Snapshot_info_t.new 7) 18446744073709551615
      (Or.inl ⟨7, rfl⟩)).2.2.1
  obtain ⟨t, h3, -, -, h4⟩ :=
    (snapshot_info_set_get (Snapshot_info_t.reset ⟨.AS_OF_GCN, 5⟩) 42
      (Or.inr ⟨⟨.AS_OF_GCN, 5⟩, rfl⟩)).2.2.2.1
  exact ⟨by rw [h1]; exact h2, by rw [h3]; exact h4⟩

end im
